import Mathlib

/-!
# GPU convolution backend of Blitz: forward, backward-data and update

A verification development for `src/backends/gpu_backend_conv-inl.h`.

The three operations of that file are straight-line sequences of calls to device
collaborators (tensor fill, transpose, im2col/col2im, matrix multiply, fused kernels), with one
`switch` on the algorithm and one `for` loop over the batch.  Each operation is embedded as the
list of collaborator calls it issues, in source order and with the source's arguments
(`ForwardBody`, `BackwardBody`, `UpdateBody`), cut after the first call that terminates the
process (`runUntilFatal`).  Device memory is a family of integer buffers and `exec` gives every
call its effect on it.

Extents and offsets are `size_t` in the source and natural numbers here: a product such as
`n * CHW` is an element offset into an existing tensor, so it stays far below 2^64 and
wrap-around is not modelled.  Tensor elements are integers, so that sums are exact.  The timing
code under `BLITZ_PERFORMANCE` calls no collaborator and changes no tensor; it is left out.
-/

namespace Blitz

/-! ## Data model -/

/-- Modelled from the spec: the algorithm identifier enum is declared outside the source file.
The three identifiers the source names in its `case` labels are kept; every other value of the
enum is `BLITZ_CONVOLUTION_OTHER tag`. -/
inductive BLITZ_ALGORITHM where
  | BLITZ_CONVOLUTION_SASS_DIRECT
  | BLITZ_CONVOLUTION_BLAS_GEMM
  | BLITZ_CONVOLUTION_SASS_GEMM
  | BLITZ_CONVOLUTION_OTHER (tag : Nat)
  deriving DecidableEq, Repr

/-- The four device buffers an operation touches.  `filter` is the tensor decoded with
`Blitz2DFilter`: the filter in Forward and BackwardData, the `update` (filter-gradient) tensor in
Update.  `workspace` is `context->workspace()`. -/
inductive Buf where
  | input
  | filter
  | output
  | workspace
  deriving DecidableEq, Repr

/-- A raw device pointer: `t->data()` is offset 0 of the buffer, `t->Slice(off)` is offset
`off`, counted in elements. -/
structure Ptr where
  buf : Buf
  off : Nat
  deriving DecidableEq, Repr

/-- The four extents a shape decodes to. -/
structure Shape where
  d0 : Nat
  d1 : Nat
  d2 : Nat
  d3 : Nat
  deriving DecidableEq, Repr

/-- Modelled from the spec: the tensor class is declared outside the source file.  A device
tensor has a fixed shape, a layout tag and `size()` elements of data; elements are integers
(exact arithmetic). -/
structure GPUTensor where
  shape : Shape
  data_layout : Nat
  data : List Int
  deriving DecidableEq, Repr

/-- Element count `t->size()`. -/
def GPUTensor.size (t : GPUTensor) : Nat := t.data.length

/-- Modelled from the spec: `Blitz2DBuffer` is declared outside the source file; decoding is pure
unpacking of the shape into (batch, channels, height, width). -/
def Blitz2DBuffer (s : Shape) : Nat × Nat × Nat × Nat := (s.d0, s.d1, s.d2, s.d3)

/-- Modelled from the spec: `Blitz2DFilter` is declared outside the source file; decoding is pure
unpacking of the shape into (output channels, input channels, kernel height, kernel width). -/
def Blitz2DFilter (s : Shape) : Nat × Nat × Nat × Nat := (s.d0, s.d1, s.d2, s.d3)

/-- Modelled from the spec: the context class is declared outside the source file.  It holds
padding, stride, the algorithm, the workspace tensor (its data) and the three layout validators,
taken as parameters: each answers whether the quadruple it is given is accepted. -/
structure ConvolutionContext where
  pad_h : Nat
  pad_w : Nat
  str_h : Nat
  str_w : Nat
  algorithm : BLITZ_ALGORITHM
  workspace : List Int
  CheckInputDataLayout : Nat → Nat → Nat → Nat → Bool
  CheckFilterDataLayout : Nat → Nat → Nat → Nat → Bool
  CheckOutputDataLayout : Nat → Nat → Nat → Nat → Bool

/-- Argument block of the fused kernels, in source order:
`NIN, C, H, W, R, S, K, P, Q, pad_h, pad_w, str_h, str_w`. -/
structure DirectArgs where
  N : Nat
  C : Nat
  H : Nat
  W : Nat
  R : Nat
  S : Nat
  K : Nat
  P : Nat
  Q : Nat
  pad_h : Nat
  pad_w : Nat
  str_h : Nat
  str_w : Nat
  deriving DecidableEq, Repr

/-- Argument block of the im2col/col2im dispatch, in source order:
`C, H, W, R, S, P, Q, pad_h, pad_w, str_h, str_w`. -/
structure PatchArgs where
  C : Nat
  H : Nat
  W : Nat
  R : Nat
  S : Nat
  P : Nat
  Q : Nat
  pad_h : Nat
  pad_w : Nat
  str_h : Nat
  str_w : Nat
  deriving DecidableEq, Repr

/-- One call issued by an operation, with the arguments the source passes. -/
inductive Call where
  | CheckInputDataLayout (N C H W : Nat)
  | CheckFilterDataLayout (K C R S : Nat)
  | CheckOutputDataLayout (N K P Q : Nat)
  | Fill (t : Buf) (v : Int)
  | GPUTrans (src dst : Ptr) (rows cols : Nat)
  | SassConvolution2DForward (I O F : Ptr) (a : DirectArgs)
  | SassConvolution2DBackward (I O F : Ptr) (a : DirectArgs)
  | SassConvolution2DUpdate (I O F : Ptr) (a : DirectArgs)
  | Filter2DShuffle (src dst : Ptr) (K C R S : Nat)
  | Unpack2DDispatch (src dst : Ptr) (a : PatchArgs) (layout : Nat)
  | Pack2DDispatch (src dst : Ptr) (a : PatchArgs) (layout : Nat)
  | Gemm (A B C : Ptr) (transa transb : Bool) (alpha beta : Int) (M N K : Nat)
  | SassGemm (A B C : Ptr) (transa transb : Bool) (alpha beta : Int) (M N K : Nat)
  | LOG_FATAL_UnsupportedAlgorithmType (a : BLITZ_ALGORITHM)
  deriving DecidableEq, Repr

/-- The calls of a `for (size_t n = 0; n < N; ++n)` loop: the body's calls for 0, 1, ..., N-1. -/
def forLoop : Nat → (Nat → List Call) → List Call
  | 0, _ => []
  | n + 1, body => forLoop n body ++ body n

/-! ## The three operations, as the calls the source text issues -/

/-- Calls of `Convolution2DForwardFunc`, lines 15-103, in source order. -/
def ForwardBody (input filter output : GPUTensor) (context : ConvolutionContext) : List Call :=
  let (NIN, C, H, W) := Blitz2DBuffer input.shape
  let (KF, CF, R, S) := Blitz2DFilter filter.shape
  let (NOUT, K, P, Q) := Blitz2DBuffer output.shape
  let pad_h := context.pad_h
  let pad_w := context.pad_w
  let str_h := context.str_h
  let str_w := context.str_w
  let CHW := C * H * W
  let PQ := P * Q
  let KPQ := K * PQ
  let CRS := C * R * S
  [Call.CheckInputDataLayout NIN C H W,
   Call.CheckFilterDataLayout KF CF R S,
   Call.CheckOutputDataLayout NOUT K P Q,
   Call.Fill Buf.output 0] ++
  match context.algorithm with
  | .BLITZ_CONVOLUTION_SASS_DIRECT =>
    [Call.Fill Buf.workspace 0,
     Call.GPUTrans ⟨Buf.input, 0⟩ ⟨Buf.workspace, 0⟩ NIN CHW,
     Call.GPUTrans ⟨Buf.filter, 0⟩ ⟨Buf.workspace, input.size + output.size⟩ K CRS,
     Call.SassConvolution2DForward
       ⟨Buf.workspace, 0⟩
       ⟨Buf.workspace, input.size⟩
       ⟨Buf.workspace, input.size + output.size⟩
       ⟨NIN, C, H, W, R, S, K, P, Q, pad_h, pad_w, str_h, str_w⟩,
     Call.GPUTrans ⟨Buf.workspace, input.size⟩ ⟨Buf.output, 0⟩ KPQ NIN]
  | .BLITZ_CONVOLUTION_BLAS_GEMM =>
    forLoop NIN fun n =>
      let nCHW := n * CHW
      let nKPQ := n * KPQ
      [Call.Unpack2DDispatch ⟨Buf.input, nCHW⟩ ⟨Buf.workspace, 0⟩
         ⟨C, H, W, R, S, P, Q, pad_h, pad_w, str_h, str_w⟩ input.data_layout,
       Call.Gemm ⟨Buf.filter, 0⟩ ⟨Buf.workspace, 0⟩ ⟨Buf.output, nKPQ⟩
         false true 1 0 K PQ CRS]
  | .BLITZ_CONVOLUTION_SASS_GEMM =>
    forLoop NIN fun n =>
      let nCHW := n * CHW
      let nKPQ := n * KPQ
      [Call.Unpack2DDispatch ⟨Buf.input, nCHW⟩ ⟨Buf.workspace, 0⟩
         ⟨C, H, W, R, S, P, Q, pad_h, pad_w, str_h, str_w⟩ input.data_layout,
       Call.SassGemm ⟨Buf.filter, 0⟩ ⟨Buf.workspace, 0⟩ ⟨Buf.output, nKPQ⟩
         false true 1 0 K PQ CRS]
  | .BLITZ_CONVOLUTION_OTHER tag =>
    [Call.LOG_FATAL_UnsupportedAlgorithmType (.BLITZ_CONVOLUTION_OTHER tag)]

/-- Calls of `Convolution2DBackwardFunc`, lines 122-224, in source order.  The written tensor
is `input` (the input-gradient). -/
def BackwardBody (output filter input : GPUTensor) (context : ConvolutionContext) : List Call :=
  let (NIN, C, H, W) := Blitz2DBuffer input.shape
  let (KF, CF, R, S) := Blitz2DFilter filter.shape
  let (NOUT, K, P, Q) := Blitz2DBuffer output.shape
  let pad_h := context.pad_h
  let pad_w := context.pad_w
  let str_h := context.str_h
  let str_w := context.str_w
  let CHW := C * H * W
  let PQ := P * Q
  let KPQ := K * PQ
  let CRS := C * R * S
  [Call.CheckInputDataLayout NIN C H W,
   Call.CheckFilterDataLayout KF CF R S,
   Call.CheckOutputDataLayout NOUT K P Q,
   Call.Fill Buf.input 0] ++
  match context.algorithm with
  | .BLITZ_CONVOLUTION_SASS_DIRECT =>
    [Call.Fill Buf.workspace 0,
     Call.GPUTrans ⟨Buf.output, 0⟩ ⟨Buf.workspace, input.size⟩ NIN KPQ] ++
    (if C % 64 ≠ 0 then
      [Call.SassConvolution2DBackward
         ⟨Buf.workspace, 0⟩
         ⟨Buf.workspace, input.size⟩
         ⟨Buf.filter, 0⟩
         ⟨NIN, C, H, W, R, S, K, P, Q, pad_h, pad_w, str_h, str_w⟩]
    else
      [Call.Filter2DShuffle ⟨Buf.filter, 0⟩ ⟨Buf.workspace, input.size + output.size⟩ K C R S,
       Call.SassConvolution2DBackward
         ⟨Buf.workspace, 0⟩
         ⟨Buf.workspace, input.size⟩
         ⟨Buf.workspace, input.size + output.size⟩
         ⟨NIN, C, H, W, R, S, K, P, Q, pad_h, pad_w, str_h, str_w⟩]) ++
    [Call.GPUTrans ⟨Buf.workspace, 0⟩ ⟨Buf.input, 0⟩ CHW NIN]
  | .BLITZ_CONVOLUTION_BLAS_GEMM =>
    forLoop NIN fun n =>
      let nCHW := n * CHW
      let nKPQ := n * KPQ
      [Call.Gemm ⟨Buf.output, nKPQ⟩ ⟨Buf.filter, 0⟩ ⟨Buf.workspace, 0⟩
         true false 1 0 PQ CRS K,
       Call.Pack2DDispatch ⟨Buf.workspace, 0⟩ ⟨Buf.input, nCHW⟩
         ⟨C, H, W, R, S, P, Q, pad_h, pad_w, str_h, str_w⟩ input.data_layout]
  | .BLITZ_CONVOLUTION_SASS_GEMM =>
    forLoop NIN fun n =>
      let nCHW := n * CHW
      let nKPQ := n * KPQ
      [Call.SassGemm ⟨Buf.output, nKPQ⟩ ⟨Buf.filter, 0⟩ ⟨Buf.workspace, 0⟩
         true false 1 0 PQ CRS K,
       Call.Pack2DDispatch ⟨Buf.workspace, 0⟩ ⟨Buf.input, nCHW⟩
         ⟨C, H, W, R, S, P, Q, pad_h, pad_w, str_h, str_w⟩ input.data_layout]
  | .BLITZ_CONVOLUTION_OTHER tag =>
    [Call.LOG_FATAL_UnsupportedAlgorithmType (.BLITZ_CONVOLUTION_OTHER tag)]

/-- Calls of `Convolution2DUpdateFunc`, lines 243-332, in source order.  The written tensor
`update` (the filter-gradient) is decoded with `Blitz2DFilter` and lives in `Buf.filter`. -/
def UpdateBody (input output update : GPUTensor) (context : ConvolutionContext) : List Call :=
  let (NIN, C, H, W) := Blitz2DBuffer input.shape
  let (KF, CF, R, S) := Blitz2DFilter update.shape
  let (NOUT, K, P, Q) := Blitz2DBuffer output.shape
  let pad_h := context.pad_h
  let pad_w := context.pad_w
  let str_h := context.str_h
  let str_w := context.str_w
  let CHW := C * H * W
  let PQ := P * Q
  let KPQ := K * PQ
  let CRS := C * R * S
  [Call.CheckInputDataLayout NIN C H W,
   Call.CheckFilterDataLayout KF CF R S,
   Call.CheckOutputDataLayout NOUT K P Q,
   Call.Fill Buf.filter 0] ++
  match context.algorithm with
  | .BLITZ_CONVOLUTION_SASS_DIRECT =>
    [Call.Fill Buf.workspace 0,
     Call.GPUTrans ⟨Buf.input, 0⟩ ⟨Buf.workspace, 0⟩ NIN CHW,
     Call.GPUTrans ⟨Buf.output, 0⟩ ⟨Buf.workspace, input.size⟩ NIN KPQ,
     Call.SassConvolution2DUpdate
       ⟨Buf.workspace, 0⟩
       ⟨Buf.workspace, input.size⟩
       ⟨Buf.workspace, input.size + output.size⟩
       ⟨NIN, C, H, W, R, S, K, P, Q, pad_h, pad_w, str_h, str_w⟩,
     Call.GPUTrans ⟨Buf.workspace, input.size + output.size⟩ ⟨Buf.filter, 0⟩ CRS K]
  | .BLITZ_CONVOLUTION_BLAS_GEMM =>
    forLoop NIN fun n =>
      let nCHW := n * CHW
      let nKPQ := n * KPQ
      [Call.Unpack2DDispatch ⟨Buf.input, nCHW⟩ ⟨Buf.workspace, 0⟩
         ⟨C, H, W, R, S, P, Q, pad_h, pad_w, str_h, str_w⟩ input.data_layout,
       Call.Gemm ⟨Buf.output, nKPQ⟩ ⟨Buf.workspace, 0⟩ ⟨Buf.filter, 0⟩
         false false 1 1 K CRS PQ]
  | .BLITZ_CONVOLUTION_SASS_GEMM =>
    forLoop NIN fun n =>
      let nCHW := n * CHW
      let nKPQ := n * KPQ
      [Call.Unpack2DDispatch ⟨Buf.input, nCHW⟩ ⟨Buf.workspace, 0⟩
         ⟨C, H, W, R, S, P, Q, pad_h, pad_w, str_h, str_w⟩ input.data_layout,
       Call.SassGemm ⟨Buf.output, nKPQ⟩ ⟨Buf.workspace, 0⟩ ⟨Buf.filter, 0⟩
         false false 1 1 K CRS PQ]
  | .BLITZ_CONVOLUTION_OTHER tag =>
    [Call.LOG_FATAL_UnsupportedAlgorithmType (.BLITZ_CONVOLUTION_OTHER tag)]

/-! ## Fatal calls -/

/-- Modelled from the spec: the validators and the fatal logging sink are declared outside the
source file.  A layout check that rejects its quadruple aborts the whole operation, and so does
the fatal log of the dispatcher; no other call aborts. -/
def aborts (context : ConvolutionContext) : Call → Bool
  | .CheckInputDataLayout N C H W => !context.CheckInputDataLayout N C H W
  | .CheckFilterDataLayout K C R S => !context.CheckFilterDataLayout K C R S
  | .CheckOutputDataLayout N K P Q => !context.CheckOutputDataLayout N K P Q
  | .LOG_FATAL_UnsupportedAlgorithmType _ => true
  | _ => false

/-- The calls really issued: the source's sequence up to and including the first aborting one. -/
def runUntilFatal (context : ConvolutionContext) : List Call → List Call
  | [] => []
  | c :: cs => if aborts context c then [c] else c :: runUntilFatal context cs

/-- Embedding of `Convolution2DForwardFunc`: the calls it issues. -/
def Convolution2DForwardFunc (input filter output : GPUTensor)
    (context : ConvolutionContext) : List Call :=
  runUntilFatal context (ForwardBody input filter output context)

/-- Embedding of `Convolution2DBackwardFunc`: the calls it issues. -/
def Convolution2DBackwardFunc (output filter input : GPUTensor)
    (context : ConvolutionContext) : List Call :=
  runUntilFatal context (BackwardBody output filter input context)

/-- Embedding of `Convolution2DUpdateFunc`: the calls it issues. -/
def Convolution2DUpdateFunc (input output update : GPUTensor)
    (context : ConvolutionContext) : List Call :=
  runUntilFatal context (UpdateBody input output update context)

/-! ## Device memory and the effect of each call -/

/-- Device memory: the contents of the four buffers. -/
abbrev Mem := Buf → List Int

/-- Device memory holding the given contents. -/
def deviceMemory (input filter output workspace : List Int) : Mem
  | .input => input
  | .filter => filter
  | .output => output
  | .workspace => workspace

/-- Element `i` behind pointer `p`.  A read past the end of the buffer yields 0. -/
def rd (m : Mem) (p : Ptr) (i : Nat) : Int := (m p.buf).getD (p.off + i) 0

/-- The first `len` elements behind pointer `p`, as a view that is 0 elsewhere. -/
def view (m : Mem) (p : Ptr) (len : Nat) (i : Nat) : Int := if i < len then rd m p i else 0

/-- List `l` with the `len` elements from offset `off` replaced by `f 0, f 1, ...`.  The buffer
keeps its length: elements that would fall past its end are dropped. -/
def overwrite (l : List Int) (off len : Nat) (f : Nat → Int) : List Int :=
  (List.range l.length).map fun i => if off ≤ i ∧ i < off + len then f (i - off) else l.getD i 0

/-- Memory after storing `f 0, ..., f (len-1)` behind pointer `p`. -/
def wr (m : Mem) (p : Ptr) (len : Nat) (f : Nat → Int) : Mem :=
  fun b => if b = p.buf then overwrite (m b) p.off len f else m b

/-- Sum of `f 0, ..., f (n-1)`. -/
def sumTo : Nat → (Nat → Int) → Int
  | 0, _ => 0
  | n + 1, f => sumTo n f + f n

/-- Modelled from the spec: the matrix multiply is declared outside the source file.  Entry
(i, j) of `op(A) * op(B)` for `op(A)` of M x K and `op(B)` of K x N.  Matrices are stored row by
row, as the output slice that receives the K x PQ product of Forward is laid out: an operand that
is not transposed is stored as M x K (resp. K x N), a transposed one as K x M (resp. N x K). -/
def gemmEntry (m : Mem) (A B : Ptr) (transa transb : Bool) (M N K : Nat) (i j : Nat) : Int :=
  sumTo K fun k =>
    (if transa then rd m A (k * M + i) else rd m A (i * K + k)) *
    (if transb then rd m B (j * K + k) else rd m B (k * N + j))

/-- Modelled from the spec: `C = alpha * op(A) * op(B) + beta * C`, C of M x N stored row by
row. -/
def execGemm (m : Mem) (A B C : Ptr) (transa transb : Bool) (alpha beta : Int)
    (M N K : Nat) : Mem :=
  wr m C (M * N) fun idx =>
    alpha * gemmEntry m A B transa transb M N K (idx / N) (idx % N) + beta * rd m C idx

/-- The collaborators whose results the source file does not determine, as parameters.
`Unpack2D img a layout` is the patch matrix (`C*R*S*P*Q` entries) gathered from one image;
`Pack2D patches img a layout` is the image (`C*H*W` entries) after the patch matrix was folded
into the image `img`; `direct` is the effect of a fused kernel or filter-shuffle call on device
memory, which cannot resize a buffer. -/
structure Collaborators where
  Unpack2D : (Nat → Int) → PatchArgs → Nat → Nat → Int
  Pack2D : (Nat → Int) → (Nat → Int) → PatchArgs → Nat → Nat → Int
  direct : Call → Mem → Mem
  direct_length : ∀ (c : Call) (m : Mem) (b : Buf), (direct c m b).length = (m b).length

/-- Modelled from the spec: the tensor's `Fill` is declared outside the source file; it sets
every element of the tensor to `v`. -/
def execFill (m : Mem) (t : Buf) (v : Int) : Mem :=
  fun b => if b = t then List.replicate (m b).length v else m b

/-- Modelled from the spec: the transpose is declared outside the source file.  Out of place,
the rows x cols matrix behind `src`, stored row by row, is written behind `dst` as a
cols x rows matrix. -/
def execTrans (m : Mem) (src dst : Ptr) (rows cols : Nat) : Mem :=
  wr m dst (rows * cols) fun j => rd m src (j % rows * cols + j / rows)

/-- Modelled from the spec: the unfold (im2col) dispatch is declared outside the source file.
It reads one image of C*H*W elements behind `src` and stores the C*R*S*P*Q entries of its patch
matrix behind `dst`. -/
def execUnpack (k : Collaborators) (m : Mem) (src dst : Ptr) (a : PatchArgs) (layout : Nat) :
    Mem :=
  wr m dst (a.C * a.R * a.S * (a.P * a.Q)) (k.Unpack2D (view m src (a.C * a.H * a.W)) a layout)

/-- Modelled from the spec: the fold (col2im) dispatch is declared outside the source file.
It reads the C*R*S*P*Q entries of a patch matrix behind `src` and the image of C*H*W elements
behind `dst`, and stores the image with the patches added in behind `dst`. -/
def execPack (k : Collaborators) (m : Mem) (src dst : Ptr) (a : PatchArgs) (layout : Nat) :
    Mem :=
  wr m dst (a.C * a.H * a.W)
    (k.Pack2D (view m src (a.C * a.R * a.S * (a.P * a.Q))) (view m dst (a.C * a.H * a.W))
      a layout)

/-- Effect of one call on device memory.  The layout checks and the fatal log change nothing;
the fused kernels and the shuffle come from `k`. -/
def exec (k : Collaborators) (c : Call) (m : Mem) : Mem :=
  match c with
  | .CheckInputDataLayout _ _ _ _ => m
  | .CheckFilterDataLayout _ _ _ _ => m
  | .CheckOutputDataLayout _ _ _ _ => m
  | .LOG_FATAL_UnsupportedAlgorithmType _ => m
  | .Fill t v => execFill m t v
  | .GPUTrans src dst rows cols => execTrans m src dst rows cols
  | .Gemm A B C ta tb alpha beta M N K => execGemm m A B C ta tb alpha beta M N K
  | .SassGemm A B C ta tb alpha beta M N K => execGemm m A B C ta tb alpha beta M N K
  | .Unpack2DDispatch src dst a layout => execUnpack k m src dst a layout
  | .Pack2DDispatch src dst a layout => execPack k m src dst a layout
  | .SassConvolution2DForward I O F a => k.direct (.SassConvolution2DForward I O F a) m
  | .SassConvolution2DBackward I O F a => k.direct (.SassConvolution2DBackward I O F a) m
  | .SassConvolution2DUpdate I O F a => k.direct (.SassConvolution2DUpdate I O F a) m
  | .Filter2DShuffle src dst K C R S => k.direct (.Filter2DShuffle src dst K C R S) m

/-- Memory after a sequence of calls. -/
def runCalls (k : Collaborators) : List Call → Mem → Mem
  | [], m => m
  | c :: cs, m => runCalls k cs (exec k c m)

/-- Device memory after `Convolution2DForwardFunc`. -/
def ForwardResult (k : Collaborators) (input filter output : GPUTensor)
    (context : ConvolutionContext) : Mem :=
  runCalls k (Convolution2DForwardFunc input filter output context)
    (deviceMemory input.data filter.data output.data context.workspace)

/-- Device memory after `Convolution2DBackwardFunc`. -/
def BackwardResult (k : Collaborators) (output filter input : GPUTensor)
    (context : ConvolutionContext) : Mem :=
  runCalls k (Convolution2DBackwardFunc output filter input context)
    (deviceMemory input.data filter.data output.data context.workspace)

/-- Device memory after `Convolution2DUpdateFunc`; the `update` tensor is `Buf.filter`. -/
def UpdateResult (k : Collaborators) (input output update : GPUTensor)
    (context : ConvolutionContext) : Mem :=
  runCalls k (Convolution2DUpdateFunc input output update context)
    (deviceMemory input.data update.data output.data context.workspace)

/-! ## Collaborator models and the reference convolution -/

/-- Value of image position (c, p*str_h + r - pad_h, q*str_w + s - pad_w) of a C x H x W image
stored channel by channel, row by row; 0 when the position lies in the padding. -/
def patchEntry (img : Nat → Int) (a : PatchArgs) (c r s p q : Nat) : Int :=
  if a.pad_h ≤ p * a.str_h + r ∧ p * a.str_h + r - a.pad_h < a.H ∧
     a.pad_w ≤ q * a.str_w + s ∧ q * a.str_w + s - a.pad_w < a.W
  then img ((c * a.H + (p * a.str_h + r - a.pad_h)) * a.W + (q * a.str_w + s - a.pad_w))
  else 0

/-- Modelled from the spec: the im2col transform is declared outside the source file.  Section 6
has it gather the receptive fields into a CRS x PQ matrix: entry (crs, pq), stored row by row at
`crs * PQ + pq`, is the value that kernel position crs sees at output position pq. -/
def im2colCRSxPQ (img : Nat → Int) (a : PatchArgs) (_layout : Nat) (i : Nat) : Int :=
  let crs := i / (a.P * a.Q)
  let pq := i % (a.P * a.Q)
  patchEntry img a (crs / (a.R * a.S)) (crs % (a.R * a.S) / a.S) (crs % a.S) (pq / a.Q) (pq % a.Q)

/-- The same gather with one row per output position: entry (pq, crs) of a PQ x CRS matrix,
stored row by row at `pq * CRS + crs`.  This is the orientation the three multiply call sites of
the source file use for the workspace. -/
def im2colPQxCRS (img : Nat → Int) (a : PatchArgs) (_layout : Nat) (i : Nat) : Int :=
  let pq := i / (a.C * a.R * a.S)
  let crs := i % (a.C * a.R * a.S)
  patchEntry img a (crs / (a.R * a.S)) (crs % (a.R * a.S) / a.S) (crs % a.S) (pq / a.Q) (pq % a.Q)

/-- Modelled from the spec: the col2im transform is declared outside the source file.  It is
the inverse of the gather, for a patch matrix of CRS x PQ: every image position (c, h, w)
receives, on top of the value it holds, the entries of all receptive fields that cover it. -/
def col2imCRSxPQ (patches img : Nat → Int) (a : PatchArgs) (_layout : Nat) (i : Nat) : Int :=
  let c := i / (a.H * a.W)
  let h := i % (a.H * a.W) / a.W
  let w := i % a.W
  img i + sumTo a.R fun r => sumTo a.S fun s => sumTo a.P fun p => sumTo a.Q fun q =>
    if p * a.str_h + r = h + a.pad_h ∧ q * a.str_w + s = w + a.pad_w
    then patches (((c * a.R + r) * a.S + s) * (a.P * a.Q) + (p * a.Q + q))
    else 0

/-- The same fold for a patch matrix with one row per output position (PQ x CRS). -/
def col2imPQxCRS (patches img : Nat → Int) (a : PatchArgs) (_layout : Nat) (i : Nat) : Int :=
  let c := i / (a.H * a.W)
  let h := i % (a.H * a.W) / a.W
  let w := i % a.W
  img i + sumTo a.R fun r => sumTo a.S fun s => sumTo a.P fun p => sumTo a.Q fun q =>
    if p * a.str_h + r = h + a.pad_h ∧ q * a.str_w + s = w + a.pad_w
    then patches ((p * a.Q + q) * (a.C * a.R * a.S) + ((c * a.R + r) * a.S + s))
    else 0

/-- Collaborators as section 6 of the spec states them (patch matrix of CRS x PQ).  The fused
kernels and the shuffle are given no model: they are inert here, and no statement below
evaluates the direct path on these collaborators. -/
def specCollaborators : Collaborators where
  Unpack2D := im2colCRSxPQ
  Pack2D := col2imCRSxPQ
  direct := fun _ m => m
  direct_length := fun _ _ _ => rfl

/-- Collaborators whose patch matrix has one row per output position (PQ x CRS); fused kernels
and shuffle inert as in `specCollaborators`. -/
def rowPatchCollaborators : Collaborators where
  Unpack2D := im2colPQxCRS
  Pack2D := col2imPQxCRS
  direct := fun _ m => m
  direct_length := fun _ _ _ => rfl

/-- Input element in[n,c,h,w] of a batch-major N x C x H x W tensor, 0 outside the image. -/
def inputAt (input : List Int) (C H W : Nat) (n c : Nat) (h w : Int) : Int :=
  if 0 ≤ h ∧ h < H ∧ 0 ≤ w ∧ w < W
  then input.getD (((n * C + c) * H + h.toNat) * W + w.toNat) 0
  else 0

/-- Filter element filter[k,c,r,s] of a K x C x R x S tensor. -/
def filterAt (filter : List Int) (C R S : Nat) (k c r s : Nat) : Int :=
  filter.getD (((k * C + c) * R + r) * S + s) 0

/-- Output element out[n,k,p,q] of a batch-major N x K x P x Q tensor. -/
def outputAt (output : List Int) (K P Q : Nat) (n k p q : Nat) : Int :=
  output.getD (((n * K + k) * P + p) * Q + q) 0

/-- The reference convolution: sum over c, r, s of
filter[k,c,r,s] * in[n,c,p*str_h + r - pad_h, q*str_w + s - pad_w]. -/
def referenceConvolution (input filter : List Int) (C H W R S : Nat)
    (pad_h pad_w str_h str_w : Nat) (n k p q : Nat) : Int :=
  sumTo C fun c => sumTo R fun r => sumTo S fun s =>
    filterAt filter C R S k c r s *
    inputAt input C H W n c
      ((p : Int) * str_h + r - pad_h) ((q : Int) * str_w + s - pad_w)

/-! ## Vocabulary of the statements -/

/-- The three layout checks on the quadruples decoded from the three tensors. -/
def layoutChecks (input filter output : GPUTensor) : List Call :=
  [Call.CheckInputDataLayout input.shape.d0 input.shape.d1 input.shape.d2 input.shape.d3,
   Call.CheckFilterDataLayout filter.shape.d0 filter.shape.d1 filter.shape.d2 filter.shape.d3,
   Call.CheckOutputDataLayout output.shape.d0 output.shape.d1 output.shape.d2 output.shape.d3]

/-- All three validators of the context accept the decoded quadruples. -/
def passesLayout (context : ConvolutionContext) (input filter output : GPUTensor) : Bool :=
  context.CheckInputDataLayout input.shape.d0 input.shape.d1 input.shape.d2 input.shape.d3 &&
  context.CheckFilterDataLayout filter.shape.d0 filter.shape.d1 filter.shape.d2 filter.shape.d3 &&
  context.CheckOutputDataLayout output.shape.d0 output.shape.d1 output.shape.d2 output.shape.d3

/-- The call is one of the three layout checks. -/
def isCheck : Call → Bool
  | .CheckInputDataLayout _ _ _ _ => true
  | .CheckFilterDataLayout _ _ _ _ => true
  | .CheckOutputDataLayout _ _ _ _ => true
  | _ => false

/-- The call is the dispatcher's fatal log. -/
def isUnsupportedFatal : Call → Bool
  | .LOG_FATAL_UnsupportedAlgorithmType _ => true
  | _ => false

/-- The call is a transpose, pack/unpack, multiply, fused kernel or filter shuffle. -/
def isDeviceWork : Call → Bool
  | .GPUTrans _ _ _ _ => true
  | .SassConvolution2DForward _ _ _ _ => true
  | .SassConvolution2DBackward _ _ _ _ => true
  | .SassConvolution2DUpdate _ _ _ _ => true
  | .Filter2DShuffle _ _ _ _ _ _ => true
  | .Unpack2DDispatch _ _ _ _ => true
  | .Pack2DDispatch _ _ _ _ => true
  | .Gemm _ _ _ _ _ _ _ _ _ _ => true
  | .SassGemm _ _ _ _ _ _ _ _ _ _ => true
  | _ => false

/-- The call is a matrix multiply, of either implementation. -/
def isMultiply : Call → Bool
  | .Gemm _ _ _ _ _ _ _ _ _ _ => true
  | .SassGemm _ _ _ _ _ _ _ _ _ _ => true
  | _ => false

/-- The algorithm is one of the three the dispatcher has a case for. -/
def supported : BLITZ_ALGORITHM → Bool
  | .BLITZ_CONVOLUTION_OTHER _ => false
  | _ => true

/-- The algorithm is one of the two GEMM variants. -/
def isGemmAlgorithm : BLITZ_ALGORITHM → Bool
  | .BLITZ_CONVOLUTION_BLAS_GEMM => true
  | .BLITZ_CONVOLUTION_SASS_GEMM => true
  | _ => false

/-- The multiply call of the given GEMM variant: `utils::Gemm` under BLAS, `kernels::SassGemm`
otherwise. -/
def multiplyCall (alg : BLITZ_ALGORITHM) (A B C : Ptr) (transa transb : Bool) (alpha beta : Int)
    (M N K : Nat) : Call :=
  if alg = .BLITZ_CONVOLUTION_BLAS_GEMM then Call.Gemm A B C transa transb alpha beta M N K
  else Call.SassGemm A B C transa transb alpha beta M N K

/-- Validation comes first and is all-or-nothing, for one operation: when the validators accept,
the calls are the three checks, then the zero-fill of the written tensor, then calls that are no
checks; when one rejects, the calls are an initial part of the three checks, one of them aborts,
and memory is as it was. -/
def ValidationFirst (context : ConvolutionContext) (input filter output : GPUTensor)
    (written : Buf) (calls : List Call) (before after : Mem) : Prop :=
  if passesLayout context input filter output then
    ∃ rest, calls = layoutChecks input filter output ++ Call.Fill written 0 :: rest ∧
      ∀ c ∈ rest, isCheck c = false
  else
    calls <+: layoutChecks input filter output ∧ (∃ c ∈ calls, aborts context c = true) ∧
      after = before

/-- The dispatcher is a closed switch, for one operation: under a supported algorithm no call is
the fatal log (and none aborts); under any other value the calls are exactly the checks, the
zero-fill of the written tensor and the fatal log. -/
def ClosedSwitch (context : ConvolutionContext) (input filter output : GPUTensor)
    (written : Buf) (calls : List Call) : Prop :=
  if supported context.algorithm then
    ∀ c ∈ calls, isUnsupportedFatal c = false ∧ aborts context c = false
  else
    calls = layoutChecks input filter output ++
      [Call.Fill written 0, Call.LOG_FATAL_UnsupportedAlgorithmType context.algorithm]

/-! ## Concrete inputs -/

/-- Modelled from the spec: a context set up for one layer.  Its validators compare the decoded
quadruples with the layer's extents, the output extents with the convolution size relation
`P = (H + 2*pad_h - R) / str_h + 1`, `Q = (W + 2*pad_w - S) / str_w + 1`. -/
def layerContext (N C H W K R S pad_h pad_w str_h str_w : Nat) (alg : BLITZ_ALGORITHM)
    (workspace : List Int) : ConvolutionContext where
  pad_h := pad_h
  pad_w := pad_w
  str_h := str_h
  str_w := str_w
  algorithm := alg
  workspace := workspace
  CheckInputDataLayout := fun n c h w => n == N && c == C && h == H && w == W
  CheckFilterDataLayout := fun k c r s => k == K && c == C && r == R && s == S
  CheckOutputDataLayout := fun n k p q =>
    n == N && k == K && p == (H + 2 * pad_h - R) / str_h + 1 &&
      q == (W + 2 * pad_w - S) / str_w + 1

/-- One image of 2 channels, 1 x 2 pixels: in[0,0,0,:] = 1 2, in[0,1,0,:] = 3 4. -/
def pointwiseInput : GPUTensor := ⟨⟨1, 2, 1, 2⟩, 0, [1, 2, 3, 4]⟩

/-- One 1 x 1 filter over 2 channels: filter[0,0,0,0] = 1, filter[0,1,0,0] = 0. -/
def pointwiseFilter : GPUTensor := ⟨⟨1, 2, 1, 1⟩, 0, [1, 0]⟩

/-- Output of 1 channel, 1 x 2 pixels, holding stale values. -/
def pointwiseOutput : GPUTensor := ⟨⟨1, 1, 1, 2⟩, 0, [7, 7]⟩

/-- Context of the pointwise layer: no padding, stride 1, a workspace of 8 stale elements. -/
def pointwiseContext (alg : BLITZ_ALGORITHM) : ConvolutionContext :=
  layerContext 1 2 1 2 1 1 1 0 0 1 1 alg [9, 9, 9, 9, 9, 9, 9, 9]

/-- One pixel of 64 channels. -/
def wideInput : GPUTensor := ⟨⟨1, 64, 1, 1⟩, 0, List.replicate 64 1⟩

/-- One 1 x 1 filter over 64 channels. -/
def wideFilter : GPUTensor := ⟨⟨1, 64, 1, 1⟩, 0, List.replicate 64 1⟩

/-- Output-gradient of one pixel, one channel. -/
def wideOutput : GPUTensor := ⟨⟨1, 1, 1, 1⟩, 0, [5]⟩

/-- Context of the 64-channel layer under the direct algorithm. -/
def wideContext : ConvolutionContext :=
  layerContext 1 64 1 1 1 1 1 0 0 1 1 .BLITZ_CONVOLUTION_SASS_DIRECT (List.replicate 129 0)

/-- Example `n` of a batch tensor on its own: a batch of one holding the n-th slice. -/
def exampleSlice (t : GPUTensor) (n : Nat) : GPUTensor where
  shape := ⟨1, t.shape.d1, t.shape.d2, t.shape.d3⟩
  data_layout := t.data_layout
  data := (t.data.drop (n * (t.shape.d1 * t.shape.d2 * t.shape.d3))).take
    (t.shape.d1 * t.shape.d2 * t.shape.d3)

/-! ## Element ranges touched by the calls -/

/-- An element range of a buffer that a call reads (`write = false`) or writes. -/
structure Access where
  buf : Buf
  off : Nat
  len : Nat
  write : Bool
  deriving DecidableEq, Repr

/-- Modelled from the spec: the collaborators are declared outside the source file; the ranges
they touch follow their contracts in section 6.  A fill writes the whole tensor; a transpose of
rows x cols reads and writes rows*cols elements; the fused kernels work on an input volume
N*C*H*W, an output volume N*K*P*Q and a filter volume K*C*R*S (forward writes the output,
backward the input, update the filter); the shuffle copies K*C*R*S elements; im2col reads an
image of C*H*W elements and writes C*R*S*P*Q, col2im the converse, adding into the image; the
multiply reads M*K and K*N elements and writes M*N.  `size b` is the element count of `b`. -/
def accesses (size : Buf → Nat) : Call → List Access
  | .CheckInputDataLayout _ _ _ _ => []
  | .CheckFilterDataLayout _ _ _ _ => []
  | .CheckOutputDataLayout _ _ _ _ => []
  | .LOG_FATAL_UnsupportedAlgorithmType _ => []
  | .Fill t _ => [⟨t, 0, size t, true⟩]
  | .GPUTrans src dst rows cols =>
    [⟨src.buf, src.off, rows * cols, false⟩, ⟨dst.buf, dst.off, rows * cols, true⟩]
  | .SassConvolution2DForward I O F a =>
    [⟨I.buf, I.off, a.N * (a.C * a.H * a.W), false⟩,
     ⟨O.buf, O.off, a.N * (a.K * (a.P * a.Q)), true⟩,
     ⟨F.buf, F.off, a.K * (a.C * a.R * a.S), false⟩]
  | .SassConvolution2DBackward I O F a =>
    [⟨I.buf, I.off, a.N * (a.C * a.H * a.W), true⟩,
     ⟨O.buf, O.off, a.N * (a.K * (a.P * a.Q)), false⟩,
     ⟨F.buf, F.off, a.K * (a.C * a.R * a.S), false⟩]
  | .SassConvolution2DUpdate I O F a =>
    [⟨I.buf, I.off, a.N * (a.C * a.H * a.W), false⟩,
     ⟨O.buf, O.off, a.N * (a.K * (a.P * a.Q)), false⟩,
     ⟨F.buf, F.off, a.K * (a.C * a.R * a.S), true⟩]
  | .Filter2DShuffle src dst K C R S =>
    [⟨src.buf, src.off, K * (C * R * S), false⟩, ⟨dst.buf, dst.off, K * (C * R * S), true⟩]
  | .Unpack2DDispatch src dst a _ =>
    [⟨src.buf, src.off, a.C * a.H * a.W, false⟩,
     ⟨dst.buf, dst.off, a.C * a.R * a.S * (a.P * a.Q), true⟩]
  | .Pack2DDispatch src dst a _ =>
    [⟨src.buf, src.off, a.C * a.R * a.S * (a.P * a.Q), false⟩,
     ⟨dst.buf, dst.off, a.C * a.H * a.W, false⟩,
     ⟨dst.buf, dst.off, a.C * a.H * a.W, true⟩]
  | .Gemm A B C _ _ _ _ M N K =>
    [⟨A.buf, A.off, M * K, false⟩, ⟨B.buf, B.off, K * N, false⟩, ⟨C.buf, C.off, M * N, true⟩]
  | .SassGemm A B C _ _ _ _ M N K =>
    [⟨A.buf, A.off, M * K, false⟩, ⟨B.buf, B.off, K * N, false⟩, ⟨C.buf, C.off, M * N, true⟩]

/-- Element counts of the four buffers of a call. -/
def bufferSizes (input filter output : GPUTensor) (context : ConvolutionContext) : Buf → Nat
  | .input => input.size
  | .filter => filter.size
  | .output => output.size
  | .workspace => context.workspace.length

/-- Every workspace range the calls touch lies inside the workspace. -/
def WorkspaceInBounds (size : Buf → Nat) (calls : List Call) : Prop :=
  ∀ c ∈ calls, ∀ a ∈ accesses size c, a.buf = Buf.workspace → a.off + a.len ≤ size Buf.workspace

/-- The region discipline of the direct path, for the transposes, the fused kernel and the
shuffle among `calls`: every range written in the workspace is exactly one of `regions`
(offset, length), every range written in a tensor is the whole tensor, and within one call the
written range does not overlap a range the call reads. -/
def RegionDiscipline (size : Buf → Nat) (regions : List (Nat × Nat)) (calls : List Call) : Prop :=
  ∀ c ∈ calls, isDeviceWork c = true →
    (∀ w ∈ accesses size c, w.write = true →
      (if w.buf = Buf.workspace then (w.off, w.len) ∈ regions
       else w.off = 0 ∧ w.len = size w.buf)) ∧
    (∀ w ∈ accesses size c, ∀ r ∈ accesses size c, w.write = true → r.write = false →
      w.buf ≠ r.buf ∨ w.off + w.len ≤ r.off ∨ r.off + r.len ≤ w.off)

/-- One image of 1 channel, 4 x 4 pixels. -/
def smallInput : GPUTensor := ⟨⟨1, 1, 4, 4⟩, 0, List.replicate 16 1⟩

/-- One 2 x 2 filter over 1 channel. -/
def smallFilter : GPUTensor := ⟨⟨1, 1, 2, 2⟩, 0, List.replicate 4 1⟩

/-- Output of 1 channel, 3 x 3 pixels. -/
def smallOutput : GPUTensor := ⟨⟨1, 1, 3, 3⟩, 0, List.replicate 9 0⟩

/-- Context of the small layer: no padding, stride 1, and a workspace of exactly
input volume + output volume + filter volume = 16 + 9 + 4 elements. -/
def smallContext (alg : BLITZ_ALGORITHM) : ConvolutionContext :=
  layerContext 1 1 4 4 1 2 2 0 0 1 1 alg (List.replicate 29 0)

/-- Context of the small layer under BLAS with a workspace of 36 elements, one unfolded patch
matrix (C*R*S = 4 by P*Q = 9). -/
def roomyContext : ConvolutionContext :=
  layerContext 1 1 4 4 1 2 2 0 0 1 1 .BLITZ_CONVOLUTION_BLAS_GEMM (List.replicate 36 0)

/-- Context of the small layer under the direct algorithm, workspace of 29 elements. -/
def directContext : ConvolutionContext := smallContext .BLITZ_CONVOLUTION_SASS_DIRECT

/-- The three workspace regions of the direct path, as (offset, length): the transposed
input at 0, the transposed output at `input.size`, the filter at `input.size + output.size`. -/
def directRegions (input filter output : GPUTensor) : List (Nat × Nat) :=
  [(0, input.shape.d0 * (input.shape.d1 * input.shape.d2 * input.shape.d3)),
   (input.size, input.shape.d0 * (output.shape.d1 * (output.shape.d2 * output.shape.d3))),
   (input.size + output.size,
     output.shape.d1 * (input.shape.d1 * filter.shape.d2 * filter.shape.d3))]

/-- The ranges (offset, length) are pairwise disjoint. -/
def PairwiseDisjoint (regions : List (Nat × Nat)) : Prop :=
  regions.Pairwise fun r s => r.1 + r.2 ≤ s.1 ∨ s.1 + s.2 ≤ r.1

/-- A batch of 4 identical examples of 1 channel, 1 x 2 pixels. -/
def replicatedInput : GPUTensor := ⟨⟨4, 1, 1, 2⟩, 0, [1, 2, 1, 2, 1, 2, 1, 2]⟩

/-- The output-gradients of the 4 examples, identical, 1 channel of 1 x 2 pixels. -/
def replicatedGradient : GPUTensor := ⟨⟨4, 1, 1, 2⟩, 0, [3, 4, 3, 4, 3, 4, 3, 4]⟩

/-- A 1 x 1 x 1 x 1 filter-gradient tensor holding a stale value. -/
def staleGradient : GPUTensor := ⟨⟨1, 1, 1, 1⟩, 0, [5]⟩

/-- A 1 x 1 x 1 x 1 filter-gradient tensor holding another stale value. -/
def otherStaleGradient : GPUTensor := ⟨⟨1, 1, 1, 1⟩, 0, [-8]⟩

/-- Context of the replicated layer for the batch of 4, fused GEMM variant. -/
def batchContext : ConvolutionContext :=
  layerContext 4 1 1 2 1 1 1 0 0 1 1 .BLITZ_CONVOLUTION_SASS_GEMM [9, 9]

/-- Context of the replicated layer for a batch of 1, fused GEMM variant. -/
def singleContext : ConvolutionContext :=
  layerContext 1 1 1 2 1 1 1 0 0 1 1 .BLITZ_CONVOLUTION_SASS_GEMM [7, 7, 7]

/-! # Theorems -/

/-! ## The calls issued -/

theorem mem_forLoop (n : Nat) (body : Nat → List Call) (c : Call) :
    c ∈ forLoop n body ↔ ∃ i, i < n ∧ c ∈ body i := by
  induction n with
  | zero => simp [forLoop]
  | succ n ih =>
    simp only [forLoop, List.mem_append, ih]
    constructor
    · rintro (⟨i, hi, hc⟩ | hc)
      · exact ⟨i, Nat.lt_succ_of_lt hi, hc⟩
      · exact ⟨n, Nat.lt_succ_self n, hc⟩
    · rintro ⟨i, hi, hc⟩
      rcases Nat.lt_succ_iff_lt_or_eq.mp hi with h | h
      · exact Or.inl ⟨i, h, hc⟩
      · subst h; exact Or.inr hc

theorem runUntilFatal_eq_self (context : ConvolutionContext) (l : List Call)
    (h : ∀ c ∈ l, aborts context c = false) : runUntilFatal context l = l := by
  induction l with
  | nil => rfl
  | cons c cs ih =>
    have hc : aborts context c = false := h c (List.mem_cons_self c cs)
    simp only [runUntilFatal, hc, Bool.false_eq_true, if_false]
    rw [ih (fun d hd => h d (List.mem_cons_of_mem c hd))]

theorem mem_of_mem_runUntilFatal (context : ConvolutionContext) (l : List Call) (c : Call)
    (h : c ∈ runUntilFatal context l) : c ∈ l := by
  induction l with
  | nil => simp [runUntilFatal] at h
  | cons d ds ih =>
    simp only [runUntilFatal] at h
    split at h
    · simp at h; simp [h]
    · rcases List.mem_cons.mp h with h | h
      · simp [h]
      · exact List.mem_cons_of_mem d (ih h)


theorem forward_body_eq (input filter output : GPUTensor) (context : ConvolutionContext) :
    ∃ rest, ForwardBody input filter output context =
      layoutChecks input filter output ++ Call.Fill Buf.output 0 :: rest ∧
      (∀ c ∈ rest, isCheck c = false) ∧
      (supported context.algorithm = true →
        ∀ c ∈ rest, isUnsupportedFatal c = false ∧ aborts context c = false) ∧
      (supported context.algorithm = false →
        rest = [Call.LOG_FATAL_UnsupportedAlgorithmType context.algorithm]) := by
  cases h : context.algorithm <;>
  simp [ForwardBody, Blitz2DBuffer, Blitz2DFilter, layoutChecks, h, mem_forLoop, isCheck, aborts,
    supported, isUnsupportedFatal] <;>
  refine ⟨?_, ?_⟩ <;> rintro c x - (rfl | rfl) <;> simp

theorem backward_body_eq (output filter input : GPUTensor) (context : ConvolutionContext) :
    ∃ rest, BackwardBody output filter input context =
      layoutChecks input filter output ++ Call.Fill Buf.input 0 :: rest ∧
      (∀ c ∈ rest, isCheck c = false) ∧
      (supported context.algorithm = true →
        ∀ c ∈ rest, isUnsupportedFatal c = false ∧ aborts context c = false) ∧
      (supported context.algorithm = false →
        rest = [Call.LOG_FATAL_UnsupportedAlgorithmType context.algorithm]) := by
  cases h : context.algorithm
  · by_cases h64 : input.shape.d1 % 64 = 0 <;>
    simp [BackwardBody, Blitz2DBuffer, Blitz2DFilter, layoutChecks, h, h64, isCheck, aborts,
      supported, isUnsupportedFatal]
  all_goals
    simp [BackwardBody, Blitz2DBuffer, Blitz2DFilter, layoutChecks, h, mem_forLoop, isCheck,
      aborts, supported, isUnsupportedFatal]
  all_goals refine ⟨?_, ?_⟩ <;> rintro c x - (rfl | rfl) <;> simp

theorem update_body_eq (input output update : GPUTensor) (context : ConvolutionContext) :
    ∃ rest, UpdateBody input output update context =
      layoutChecks input update output ++ Call.Fill Buf.filter 0 :: rest ∧
      (∀ c ∈ rest, isCheck c = false) ∧
      (supported context.algorithm = true →
        ∀ c ∈ rest, isUnsupportedFatal c = false ∧ aborts context c = false) ∧
      (supported context.algorithm = false →
        rest = [Call.LOG_FATAL_UnsupportedAlgorithmType context.algorithm]) := by
  cases h : context.algorithm <;>
  simp [UpdateBody, Blitz2DBuffer, Blitz2DFilter, layoutChecks, h, mem_forLoop, isCheck, aborts,
    supported, isUnsupportedFatal] <;>
  refine ⟨?_, ?_⟩ <;> rintro c x - (rfl | rfl) <;> simp

theorem runUntilFatal_pass (context : ConvolutionContext) (input filter output : GPUTensor)
    (w : Buf) (rest : List Call) (h : passesLayout context input filter output = true) :
    runUntilFatal context (layoutChecks input filter output ++ Call.Fill w 0 :: rest) =
      layoutChecks input filter output ++ Call.Fill w 0 :: runUntilFatal context rest := by
  simp only [passesLayout, Bool.and_eq_true] at h
  obtain ⟨⟨h1, h2⟩, h3⟩ := h
  simp [layoutChecks, runUntilFatal, aborts, h1, h2, h3]

theorem runCalls_checks (k : Collaborators) (l : List Call) (m : Mem)
    (h : ∀ c ∈ l, isCheck c = true) : runCalls k l m = m := by
  induction l generalizing m with
  | nil => rfl
  | cons c cs ih =>
    have hc := h c (List.mem_cons_self c cs)
    have hm : exec k c m = m := by
      cases c <;> simp [isCheck] at hc <;> rfl
    simp only [runCalls, hm]
    exact ih m (fun d hd => h d (List.mem_cons_of_mem c hd))

theorem runUntilFatal_fail (context : ConvolutionContext) (input filter output : GPUTensor)
    (tail : List Call) (h : passesLayout context input filter output = false) :
    runUntilFatal context (layoutChecks input filter output ++ tail) <+:
      layoutChecks input filter output := by
  simp only [passesLayout] at h
  cases h1 : context.CheckInputDataLayout input.shape.d0 input.shape.d1 input.shape.d2
      input.shape.d3 <;>
  cases h2 : context.CheckFilterDataLayout filter.shape.d0 filter.shape.d1 filter.shape.d2
      filter.shape.d3 <;>
  cases h3 : context.CheckOutputDataLayout output.shape.d0 output.shape.d1 output.shape.d2
      output.shape.d3 <;>
  simp [h1, h2, h3] at h <;>
  simp [layoutChecks, runUntilFatal, aborts, h1, h2, h3, List.prefix_cons_inj] 

theorem runUntilFatal_fail_aborts (context : ConvolutionContext)
    (input filter output : GPUTensor) (tail : List Call)
    (h : passesLayout context input filter output = false) :
    ∃ c ∈ runUntilFatal context (layoutChecks input filter output ++ tail),
      aborts context c = true := by
  simp only [passesLayout] at h
  cases h1 : context.CheckInputDataLayout input.shape.d0 input.shape.d1 input.shape.d2
      input.shape.d3 <;>
  cases h2 : context.CheckFilterDataLayout filter.shape.d0 filter.shape.d1 filter.shape.d2
      filter.shape.d3 <;>
  cases h3 : context.CheckOutputDataLayout output.shape.d0 output.shape.d1 output.shape.d2
      output.shape.d3 <;>
  simp [h1, h2, h3] at h <;>
  simp [layoutChecks, runUntilFatal, aborts, h1, h2, h3]

theorem mem_layoutChecks_isCheck (input filter output : GPUTensor) (c : Call)
    (h : c ∈ layoutChecks input filter output) : isCheck c = true := by
  simp only [layoutChecks, List.mem_cons, List.mem_singleton, List.not_mem_nil, or_false] at h
  rcases h with rfl | rfl | rfl <;> rfl

theorem validationFirst_of_body (k : Collaborators) (context : ConvolutionContext)
    (input filter output : GPUTensor) (w : Buf) (rest : List Call) (m : Mem)
    (hrest : ∀ c ∈ rest, isCheck c = false) :
    ValidationFirst context input filter output w
      (runUntilFatal context (layoutChecks input filter output ++ Call.Fill w 0 :: rest)) m
      (runCalls k
        (runUntilFatal context (layoutChecks input filter output ++ Call.Fill w 0 :: rest)) m) := by
  unfold ValidationFirst
  split
  · next hp =>
    refine ⟨runUntilFatal context rest, runUntilFatal_pass context input filter output w rest hp,
      fun c hc => hrest c (mem_of_mem_runUntilFatal context rest c hc)⟩
  · next hp =>
    have hp : passesLayout context input filter output = false := by simpa using hp
    have hpre := runUntilFatal_fail context input filter output (Call.Fill w 0 :: rest) hp
    refine ⟨hpre, runUntilFatal_fail_aborts context input filter output _ hp,
      runCalls_checks k _ m fun c hc => ?_⟩
    exact mem_layoutChecks_isCheck input filter output c (hpre.subset hc)

/-- C4.  Layout validation comes first and is all-or-nothing in Forward, BackwardData and
Update: when the validators accept, each operation issues the three checks (input, filter,
output quadruple, each once), then the zero-fill of its written tensor, then calls none of which
is a check; when a validator rejects, the calls issued are an initial part of the three checks,
one of them being the rejecting check that aborts, and device memory (written tensor and
workspace included) is unchanged. -/
theorem layout_validation_first (k : Collaborators) (input filter output : GPUTensor)
    (context : ConvolutionContext) :
    ValidationFirst context input filter output Buf.output
      (Convolution2DForwardFunc input filter output context)
      (deviceMemory input.data filter.data output.data context.workspace)
      (ForwardResult k input filter output context) ∧
    ValidationFirst context input filter output Buf.input
      (Convolution2DBackwardFunc output filter input context)
      (deviceMemory input.data filter.data output.data context.workspace)
      (BackwardResult k output filter input context) ∧
    ValidationFirst context input filter output Buf.filter
      (Convolution2DUpdateFunc input output filter context)
      (deviceMemory input.data filter.data output.data context.workspace)
      (UpdateResult k input output filter context) := by
  refine ⟨?_, ?_, ?_⟩
  · obtain ⟨rest, hb, hrest, -⟩ := forward_body_eq input filter output context
    simp only [ForwardResult, Convolution2DForwardFunc, hb]
    exact validationFirst_of_body k context input filter output _ rest _ hrest
  · obtain ⟨rest, hb, hrest, -⟩ := backward_body_eq output filter input context
    simp only [BackwardResult, Convolution2DBackwardFunc, hb]
    exact validationFirst_of_body k context input filter output _ rest _ hrest
  · obtain ⟨rest, hb, hrest, -⟩ := update_body_eq input output filter context
    simp only [UpdateResult, Convolution2DUpdateFunc, hb]
    exact validationFirst_of_body k context input filter output _ rest _ hrest

theorem closedSwitch_of_body (context : ConvolutionContext)
    (input filter output : GPUTensor) (w : Buf) (rest : List Call)
    (hp : passesLayout context input filter output = true)
    (h1 : supported context.algorithm = true →
      ∀ c ∈ rest, isUnsupportedFatal c = false ∧ aborts context c = false)
    (h2 : supported context.algorithm = false →
      rest = [Call.LOG_FATAL_UnsupportedAlgorithmType context.algorithm]) :
    ClosedSwitch context input filter output w
      (runUntilFatal context (layoutChecks input filter output ++ Call.Fill w 0 :: rest)) := by
  unfold ClosedSwitch
  rw [runUntilFatal_pass context input filter output w rest hp]
  split
  · next hs =>
    intro c hc
    simp only [passesLayout, Bool.and_eq_true] at hp
    obtain ⟨⟨p1, p2⟩, p3⟩ := hp
    simp only [layoutChecks, List.cons_append, List.nil_append, List.mem_cons] at hc
    rcases hc with rfl | rfl | rfl | rfl | hc
    · simp [isUnsupportedFatal, aborts, p1]
    · simp [isUnsupportedFatal, aborts, p2]
    · simp [isUnsupportedFatal, aborts, p3]
    · simp [isUnsupportedFatal, aborts]
    · exact h1 hs c (mem_of_mem_runUntilFatal context rest c hc)
  · next hs =>
    have hs : supported context.algorithm = false := by simpa using hs
    rw [h2 hs]
    simp [runUntilFatal, aborts]

/-- C5.  The dispatcher is a strict closed switch in Forward, BackwardData and Update: with
tensors that pass layout validation, under DIRECT, GEMM_WITH_BLAS or GEMM_WITH_FUSED no call is
the fatal log and no call aborts; under any other algorithm value the calls issued are exactly
the three checks, the zero-fill of the written tensor and the fatal "Unsupported algorithm type"
log, so no transpose, pack/unpack, multiply or fused kernel is invoked. -/
theorem dispatcher_closed_switch (input filter output : GPUTensor)
    (context : ConvolutionContext)
    (hp : passesLayout context input filter output = true) :
    ClosedSwitch context input filter output Buf.output
      (Convolution2DForwardFunc input filter output context) ∧
    ClosedSwitch context input filter output Buf.input
      (Convolution2DBackwardFunc output filter input context) ∧
    ClosedSwitch context input filter output Buf.filter
      (Convolution2DUpdateFunc input output filter context) := by
  refine ⟨?_, ?_, ?_⟩
  · obtain ⟨rest, hb, -, h1, h2⟩ := forward_body_eq input filter output context
    simp only [Convolution2DForwardFunc, hb]
    exact closedSwitch_of_body context input filter output _ rest hp h1 h2
  · obtain ⟨rest, hb, -, h1, h2⟩ := backward_body_eq output filter input context
    simp only [Convolution2DBackwardFunc, hb]
    exact closedSwitch_of_body context input filter output _ rest hp h1 h2
  · obtain ⟨rest, hb, -, h1, h2⟩ := update_body_eq input output filter context
    simp only [Convolution2DUpdateFunc, hb]
    exact closedSwitch_of_body context input filter output _ rest hp h1 h2

/-- Witness of C5 at the pointwise layer with an algorithm value outside the closed set. -/
theorem dispatcher_closed_switch_witness :
    passesLayout (pointwiseContext (.BLITZ_CONVOLUTION_OTHER 7)) pointwiseInput pointwiseFilter
      pointwiseOutput = true ∧
    (ClosedSwitch (pointwiseContext (.BLITZ_CONVOLUTION_OTHER 7)) pointwiseInput pointwiseFilter
      pointwiseOutput Buf.output
      (Convolution2DForwardFunc pointwiseInput pointwiseFilter pointwiseOutput
        (pointwiseContext (.BLITZ_CONVOLUTION_OTHER 7))) ∧
    ClosedSwitch (pointwiseContext (.BLITZ_CONVOLUTION_OTHER 7)) pointwiseInput pointwiseFilter
      pointwiseOutput Buf.input
      (Convolution2DBackwardFunc pointwiseOutput pointwiseFilter pointwiseInput
        (pointwiseContext (.BLITZ_CONVOLUTION_OTHER 7))) ∧
    ClosedSwitch (pointwiseContext (.BLITZ_CONVOLUTION_OTHER 7)) pointwiseInput pointwiseFilter
      pointwiseOutput Buf.filter
      (Convolution2DUpdateFunc pointwiseInput pointwiseOutput pointwiseFilter
        (pointwiseContext (.BLITZ_CONVOLUTION_OTHER 7)))) :=
  ⟨by decide, dispatcher_closed_switch pointwiseInput pointwiseFilter pointwiseOutput
    (pointwiseContext (.BLITZ_CONVOLUTION_OTHER 7)) (by decide)⟩

/-- C7.  BackwardData under DIRECT, with tensors that pass validation: after the checks and the
two zero-fills the output-gradient is transposed to workspace offset input.size; if C % 64 = 0
the filter shuffle is called once with (K, C, R, S), writing to workspace offset
input.size + output.size, otherwise it is not called; the fused backward kernel is called once,
its filter operand being that shuffled copy if C % 64 = 0 and the caller's filter buffer
otherwise, its other arguments being the same in both cases; last, workspace offset 0 is
transposed into the input-gradient with dimensions (C*H*W, N). -/
theorem backward_direct_channel_branch (output filter input : GPUTensor)
    (context : ConvolutionContext)
    (hp : passesLayout context input filter output = true)
    (ha : context.algorithm = .BLITZ_CONVOLUTION_SASS_DIRECT) :
    Convolution2DBackwardFunc output filter input context =
      layoutChecks input filter output ++
      [Call.Fill Buf.input 0,
       Call.Fill Buf.workspace 0,
       Call.GPUTrans ⟨Buf.output, 0⟩ ⟨Buf.workspace, input.size⟩
         input.shape.d0 (output.shape.d1 * (output.shape.d2 * output.shape.d3))] ++
      (if input.shape.d1 % 64 = 0 then
        [Call.Filter2DShuffle ⟨Buf.filter, 0⟩ ⟨Buf.workspace, input.size + output.size⟩
          output.shape.d1 input.shape.d1 filter.shape.d2 filter.shape.d3]
      else []) ++
      [Call.SassConvolution2DBackward
         ⟨Buf.workspace, 0⟩
         ⟨Buf.workspace, input.size⟩
         (if input.shape.d1 % 64 = 0 then ⟨Buf.workspace, input.size + output.size⟩
          else ⟨Buf.filter, 0⟩)
         ⟨input.shape.d0, input.shape.d1, input.shape.d2, input.shape.d3,
          filter.shape.d2, filter.shape.d3,
          output.shape.d1, output.shape.d2, output.shape.d3,
          context.pad_h, context.pad_w, context.str_h, context.str_w⟩,
       Call.GPUTrans ⟨Buf.workspace, 0⟩ ⟨Buf.input, 0⟩
         (input.shape.d1 * input.shape.d2 * input.shape.d3) input.shape.d0] := by
  simp only [passesLayout, Bool.and_eq_true] at hp
  obtain ⟨⟨p1, p2⟩, p3⟩ := hp
  by_cases h64 : input.shape.d1 % 64 = 0 <;>
  simp [Convolution2DBackwardFunc, BackwardBody, Blitz2DBuffer, Blitz2DFilter, layoutChecks, ha,
    h64, runUntilFatal, aborts, p1, p2, p3]

/-- Witness of C7 at a 64-channel layer: the shuffle is called and the kernel reads its copy. -/
theorem backward_direct_channel_branch_witness :
    passesLayout wideContext wideInput wideFilter wideOutput = true ∧
    wideContext.algorithm = .BLITZ_CONVOLUTION_SASS_DIRECT ∧
    Convolution2DBackwardFunc wideOutput wideFilter wideInput wideContext =
      [Call.CheckInputDataLayout 1 64 1 1,
       Call.CheckFilterDataLayout 1 64 1 1,
       Call.CheckOutputDataLayout 1 1 1 1,
       Call.Fill Buf.input 0,
       Call.Fill Buf.workspace 0,
       Call.GPUTrans ⟨Buf.output, 0⟩ ⟨Buf.workspace, 64⟩ 1 1,
       Call.Filter2DShuffle ⟨Buf.filter, 0⟩ ⟨Buf.workspace, 65⟩ 1 64 1 1,
       Call.SassConvolution2DBackward ⟨Buf.workspace, 0⟩ ⟨Buf.workspace, 64⟩ ⟨Buf.workspace, 65⟩
         ⟨1, 64, 1, 1, 1, 1, 1, 1, 1, 0, 0, 1, 1⟩,
       Call.GPUTrans ⟨Buf.workspace, 0⟩ ⟨Buf.input, 0⟩ 64 1] :=
  ⟨by decide, rfl,
    (backward_direct_channel_branch wideOutput wideFilter wideInput wideContext
      (by decide) rfl).trans (by decide)⟩

theorem filter_isMultiply_forLoop (n : Nat) (a b : Nat → Call)
    (ha : ∀ i, isMultiply (a i) = false) (hb : ∀ i, isMultiply (b i) = true) :
    (forLoop n fun i => [a i, b i]).filter isMultiply = (List.range n).map b := by
  induction n with
  | zero => rfl
  | succ n ih =>
    simp [forLoop, List.range_succ, ih, ha, hb]

theorem filter_isMultiply_layoutChecks (input filter output : GPUTensor) (w : Buf)
    (rest : List Call) :
    (layoutChecks input filter output ++ Call.Fill w 0 :: rest).filter isMultiply =
      rest.filter isMultiply := by
  simp [layoutChecks, isMultiply]

theorem runUntilFatal_forLoop (context : ConvolutionContext) (n : Nat) (a b : Nat → Call)
    (ha : ∀ i, aborts context (a i) = false) (hb : ∀ i, aborts context (b i) = false) :
    runUntilFatal context (forLoop n fun i => [a i, b i]) = forLoop n fun i => [a i, b i] := by
  apply runUntilFatal_eq_self
  intro c hc
  obtain ⟨i, -, hi⟩ := (mem_forLoop n _ c).mp hc
  simp only [List.mem_cons, List.mem_singleton, List.not_mem_nil, or_false] at hi
  rcases hi with rfl | rfl
  · exact ha i
  · exact hb i

theorem aborts_multiplyCall (context : ConvolutionContext) (alg : BLITZ_ALGORITHM) (A B C : Ptr)
    (ta tb : Bool) (alpha beta : Int) (M N K : Nat) :
    aborts context (multiplyCall alg A B C ta tb alpha beta M N K) = false := by
  unfold multiplyCall; split <;> rfl

theorem isMultiply_multiplyCall (alg : BLITZ_ALGORITHM) (A B C : Ptr)
    (ta tb : Bool) (alpha beta : Int) (M N K : Nat) :
    isMultiply (multiplyCall alg A B C ta tb alpha beta M N K) = true := by
  unfold multiplyCall; split <;> rfl

/-- Calls of Forward under a GEMM variant, validation passed. -/
theorem forward_gemm_calls (input filter output : GPUTensor) (context : ConvolutionContext)
    (hp : passesLayout context input filter output = true)
    (hg : isGemmAlgorithm context.algorithm = true) :
    Convolution2DForwardFunc input filter output context =
      layoutChecks input filter output ++ Call.Fill Buf.output 0 ::
        forLoop input.shape.d0 fun n =>
          [Call.Unpack2DDispatch
             ⟨Buf.input, n * (input.shape.d1 * input.shape.d2 * input.shape.d3)⟩
             ⟨Buf.workspace, 0⟩
             ⟨input.shape.d1, input.shape.d2, input.shape.d3, filter.shape.d2, filter.shape.d3,
              output.shape.d2, output.shape.d3,
              context.pad_h, context.pad_w, context.str_h, context.str_w⟩
             input.data_layout,
           multiplyCall context.algorithm ⟨Buf.filter, 0⟩ ⟨Buf.workspace, 0⟩
             ⟨Buf.output, n * (output.shape.d1 * (output.shape.d2 * output.shape.d3))⟩
             false true 1 0
             output.shape.d1 (output.shape.d2 * output.shape.d3)
             (input.shape.d1 * filter.shape.d2 * filter.shape.d3)] := by
  have hbody : ForwardBody input filter output context =
      layoutChecks input filter output ++ Call.Fill Buf.output 0 ::
        forLoop input.shape.d0 fun n =>
          [Call.Unpack2DDispatch
             ⟨Buf.input, n * (input.shape.d1 * input.shape.d2 * input.shape.d3)⟩
             ⟨Buf.workspace, 0⟩
             ⟨input.shape.d1, input.shape.d2, input.shape.d3, filter.shape.d2, filter.shape.d3,
              output.shape.d2, output.shape.d3,
              context.pad_h, context.pad_w, context.str_h, context.str_w⟩
             input.data_layout,
           multiplyCall context.algorithm ⟨Buf.filter, 0⟩ ⟨Buf.workspace, 0⟩
             ⟨Buf.output, n * (output.shape.d1 * (output.shape.d2 * output.shape.d3))⟩
             false true 1 0
             output.shape.d1 (output.shape.d2 * output.shape.d3)
             (input.shape.d1 * filter.shape.d2 * filter.shape.d3)] := by
    cases h : context.algorithm <;> simp [h, isGemmAlgorithm] at hg <;>
    simp [ForwardBody, Blitz2DBuffer, Blitz2DFilter, layoutChecks, h, multiplyCall]
  rw [Convolution2DForwardFunc, hbody, runUntilFatal_pass context input filter output _ _ hp,
    runUntilFatal_forLoop]
  · intro i; rfl
  · intro i; exact aborts_multiplyCall ..

/-- C8, as the code has it.  Forward under either GEMM variant, with tensors that pass
validation: the multiply calls issued are, for n = 0, ..., N-1 in this order, one call (of
`utils::Gemm` under BLAS, of `kernels::SassGemm` under the fused variant, same arguments) with
A = the filter, B = the workspace, C = the output slice at element offset n*K*P*Q, flags
transposeA = false (the filter is not transposed) and transposeB = true (the patch operand is
transposed), alpha = 1, beta = 0, and (M, N, K) = (K, P*Q, C*R*S). -/
theorem forward_gemm_multiply_calls (input filter output : GPUTensor)
    (context : ConvolutionContext)
    (hp : passesLayout context input filter output = true)
    (hg : isGemmAlgorithm context.algorithm = true) :
    (Convolution2DForwardFunc input filter output context).filter isMultiply =
      (List.range input.shape.d0).map fun n =>
        multiplyCall context.algorithm ⟨Buf.filter, 0⟩ ⟨Buf.workspace, 0⟩
          ⟨Buf.output, n * (output.shape.d1 * (output.shape.d2 * output.shape.d3))⟩
          false true 1 0
          output.shape.d1 (output.shape.d2 * output.shape.d3)
          (input.shape.d1 * filter.shape.d2 * filter.shape.d3) := by
  rw [forward_gemm_calls input filter output context hp hg, filter_isMultiply_layoutChecks,
    filter_isMultiply_forLoop]
  · intro i; rfl
  · intro i; exact isMultiply_multiplyCall ..

/-- Witness of C8 at the pointwise layer under BLAS. -/
theorem forward_gemm_multiply_calls_witness :
    passesLayout (pointwiseContext .BLITZ_CONVOLUTION_BLAS_GEMM) pointwiseInput pointwiseFilter
      pointwiseOutput = true ∧
    isGemmAlgorithm (pointwiseContext .BLITZ_CONVOLUTION_BLAS_GEMM).algorithm = true ∧
    (Convolution2DForwardFunc pointwiseInput pointwiseFilter pointwiseOutput
      (pointwiseContext .BLITZ_CONVOLUTION_BLAS_GEMM)).filter isMultiply =
      [Call.Gemm ⟨Buf.filter, 0⟩ ⟨Buf.workspace, 0⟩ ⟨Buf.output, 0⟩ false true 1 0 1 2 2] :=
  ⟨by decide, rfl,
    (forward_gemm_multiply_calls pointwiseInput pointwiseFilter pointwiseOutput
      (pointwiseContext .BLITZ_CONVOLUTION_BLAS_GEMM) (by decide) rfl).trans (by decide)⟩

/-- C8 as stated fails: at the pointwise layer under BLAS the multiply calls issued are not the
calls with the filter transposed and the patch operand not transposed. -/
theorem forward_gemm_flags_counterexample :
    (Convolution2DForwardFunc pointwiseInput pointwiseFilter pointwiseOutput
      (pointwiseContext .BLITZ_CONVOLUTION_BLAS_GEMM)).filter isMultiply ≠
      (List.range 1).map fun n =>
        multiplyCall .BLITZ_CONVOLUTION_BLAS_GEMM ⟨Buf.filter, 0⟩ ⟨Buf.workspace, 0⟩
          ⟨Buf.output, n * (1 * (1 * 2))⟩ true false 1 0 1 (1 * 2) (2 * 1 * 1) := by
  decide

/-- Calls of Update under a GEMM variant, validation passed. -/
theorem update_gemm_calls (input output update : GPUTensor) (context : ConvolutionContext)
    (hp : passesLayout context input update output = true)
    (hg : isGemmAlgorithm context.algorithm = true) :
    Convolution2DUpdateFunc input output update context =
      layoutChecks input update output ++ Call.Fill Buf.filter 0 ::
        forLoop input.shape.d0 fun n =>
          [Call.Unpack2DDispatch
             ⟨Buf.input, n * (input.shape.d1 * input.shape.d2 * input.shape.d3)⟩
             ⟨Buf.workspace, 0⟩
             ⟨input.shape.d1, input.shape.d2, input.shape.d3, update.shape.d2, update.shape.d3,
              output.shape.d2, output.shape.d3,
              context.pad_h, context.pad_w, context.str_h, context.str_w⟩
             input.data_layout,
           multiplyCall context.algorithm
             ⟨Buf.output, n * (output.shape.d1 * (output.shape.d2 * output.shape.d3))⟩
             ⟨Buf.workspace, 0⟩ ⟨Buf.filter, 0⟩
             false false 1 1
             output.shape.d1 (input.shape.d1 * update.shape.d2 * update.shape.d3)
             (output.shape.d2 * output.shape.d3)] := by
  have hbody : UpdateBody input output update context =
      layoutChecks input update output ++ Call.Fill Buf.filter 0 ::
        forLoop input.shape.d0 fun n =>
          [Call.Unpack2DDispatch
             ⟨Buf.input, n * (input.shape.d1 * input.shape.d2 * input.shape.d3)⟩
             ⟨Buf.workspace, 0⟩
             ⟨input.shape.d1, input.shape.d2, input.shape.d3, update.shape.d2, update.shape.d3,
              output.shape.d2, output.shape.d3,
              context.pad_h, context.pad_w, context.str_h, context.str_w⟩
             input.data_layout,
           multiplyCall context.algorithm
             ⟨Buf.output, n * (output.shape.d1 * (output.shape.d2 * output.shape.d3))⟩
             ⟨Buf.workspace, 0⟩ ⟨Buf.filter, 0⟩
             false false 1 1
             output.shape.d1 (input.shape.d1 * update.shape.d2 * update.shape.d3)
             (output.shape.d2 * output.shape.d3)] := by
    cases h : context.algorithm <;> simp [h, isGemmAlgorithm] at hg <;>
    simp [UpdateBody, Blitz2DBuffer, Blitz2DFilter, layoutChecks, h, multiplyCall]
  rw [Convolution2DUpdateFunc, hbody, runUntilFatal_pass context input update output _ _ hp,
    runUntilFatal_forLoop]
  · intro i; rfl
  · intro i; exact aborts_multiplyCall ..

/-- C9, as the code has it.  Update under either GEMM variant, with tensors that pass
validation: the multiply calls issued are, for n = 0, ..., N-1 in this order, one call (of
`utils::Gemm` under BLAS, of `kernels::SassGemm` under the fused variant, same arguments) with
A = the output-gradient slice at element offset n*K*P*Q, B = the workspace, C = the whole
filter-gradient tensor at offset 0, flags transposeA = false and transposeB = false (neither
operand is transposed), alpha = 1, beta = 1, and (M, N, K) = (K, C*R*S, P*Q). -/
theorem update_gemm_multiply_calls (input output update : GPUTensor)
    (context : ConvolutionContext)
    (hp : passesLayout context input update output = true)
    (hg : isGemmAlgorithm context.algorithm = true) :
    (Convolution2DUpdateFunc input output update context).filter isMultiply =
      (List.range input.shape.d0).map fun n =>
        multiplyCall context.algorithm
          ⟨Buf.output, n * (output.shape.d1 * (output.shape.d2 * output.shape.d3))⟩
          ⟨Buf.workspace, 0⟩ ⟨Buf.filter, 0⟩
          false false 1 1
          output.shape.d1 (input.shape.d1 * update.shape.d2 * update.shape.d3)
          (output.shape.d2 * output.shape.d3) := by
  rw [update_gemm_calls input output update context hp hg, filter_isMultiply_layoutChecks,
    filter_isMultiply_forLoop]
  · intro i; rfl
  · intro i; exact isMultiply_multiplyCall ..

/-- Witness of C9 at the pointwise layer under the fused GEMM variant. -/
theorem update_gemm_multiply_calls_witness :
    passesLayout (pointwiseContext .BLITZ_CONVOLUTION_SASS_GEMM) pointwiseInput pointwiseFilter
      pointwiseOutput = true ∧
    isGemmAlgorithm (pointwiseContext .BLITZ_CONVOLUTION_SASS_GEMM).algorithm = true ∧
    (Convolution2DUpdateFunc pointwiseInput pointwiseOutput pointwiseFilter
      (pointwiseContext .BLITZ_CONVOLUTION_SASS_GEMM)).filter isMultiply =
      [Call.SassGemm ⟨Buf.output, 0⟩ ⟨Buf.workspace, 0⟩ ⟨Buf.filter, 0⟩ false false 1 1 1 2 2] :=
  ⟨by decide, rfl,
    (update_gemm_multiply_calls pointwiseInput pointwiseOutput pointwiseFilter
      (pointwiseContext .BLITZ_CONVOLUTION_SASS_GEMM) (by decide) rfl).trans (by decide)⟩

/-- C9 as stated fails: at the pointwise layer under BLAS the multiply calls issued are not the
calls with the patch operand transposed. -/
theorem update_gemm_flags_counterexample :
    (Convolution2DUpdateFunc pointwiseInput pointwiseOutput pointwiseFilter
      (pointwiseContext .BLITZ_CONVOLUTION_BLAS_GEMM)).filter isMultiply ≠
      (List.range 1).map fun n =>
        multiplyCall .BLITZ_CONVOLUTION_BLAS_GEMM ⟨Buf.output, n * (1 * (1 * 2))⟩
          ⟨Buf.workspace, 0⟩ ⟨Buf.filter, 0⟩ false true 1 1 1 (2 * 1 * 1) (1 * 2) := by
  decide

/-! ## Memory lemmas -/

theorem length_overwrite (l : List Int) (off len : Nat) (f : Nat → Int) :
    (overwrite l off len f).length = l.length := by
  simp [overwrite]

theorem getD_overwrite (l : List Int) (off len : Nat) (f : Nat → Int) (i : Nat) :
    (overwrite l off len f).getD i 0 =
      if off ≤ i ∧ i < off + len ∧ i < l.length then f (i - off) else l.getD i 0 := by
  unfold overwrite
  by_cases hi : i < l.length
  · rw [List.getD_eq_getElem _ _ (by simpa using hi)]
    simp only [List.getElem_map, List.getElem_range]
    by_cases h : off ≤ i ∧ i < off + len
    · simp [h, hi]
    · have h2 : ¬ (off ≤ i ∧ i < off + len ∧ i < l.length) := fun hh => h ⟨hh.1, hh.2.1⟩
      simp [h, h2]
  · have h2 : ¬ (off ≤ i ∧ i < off + len ∧ i < l.length) := fun hh => hi hh.2.2
    rw [if_neg h2, List.getD_eq_default _ _ (by simpa using hi),
      List.getD_eq_default _ _ (by simpa using hi)]

theorem wr_other (m : Mem) (p : Ptr) (len : Nat) (f : Nat → Int) (b : Buf) (h : b ≠ p.buf) :
    wr m p len f b = m b := by
  simp [wr, h]

theorem wr_same (m : Mem) (p : Ptr) (len : Nat) (f : Nat → Int) :
    wr m p len f p.buf = overwrite (m p.buf) p.off len f := by
  simp [wr]

theorem length_wr (m : Mem) (p : Ptr) (len : Nat) (f : Nat → Int) (b : Buf) :
    (wr m p len f b).length = (m b).length := by
  unfold wr; split
  · rw [length_overwrite]
  · rfl

theorem exec_multiplyCall (k : Collaborators) (alg : BLITZ_ALGORITHM) (A B C : Ptr)
    (ta tb : Bool) (alpha beta : Int) (M N K : Nat) (m : Mem) :
    exec k (multiplyCall alg A B C ta tb alpha beta M N K) m =
      execGemm m A B C ta tb alpha beta M N K := by
  unfold multiplyCall; split <;> rfl

theorem length_exec (k : Collaborators) (c : Call) (m : Mem) (b : Buf) :
    (exec k c m b).length = (m b).length := by
  cases c <;>
    simp only [exec, execGemm, execFill, execTrans, execUnpack, execPack, length_wr,
      k.direct_length]
  case Fill t v => split <;> simp

theorem length_runCalls (k : Collaborators) (l : List Call) (m : Mem) (b : Buf) :
    (runCalls k l m b).length = (m b).length := by
  induction l generalizing m with
  | nil => rfl
  | cons c cs ih => rw [runCalls, ih, length_exec]

theorem runCalls_append (k : Collaborators) (l1 l2 : List Call) (m : Mem) :
    runCalls k (l1 ++ l2) m = runCalls k l2 (runCalls k l1 m) := by
  induction l1 generalizing m with
  | nil => rfl
  | cons c cs ih => rw [List.cons_append, runCalls, runCalls, ih]

theorem runCalls_layoutChecks (k : Collaborators) (input filter output : GPUTensor)
    (rest : List Call) (m : Mem) :
    runCalls k (layoutChecks input filter output ++ rest) m = runCalls k rest m := by
  rw [runCalls_append, runCalls_checks k _ m (mem_layoutChecks_isCheck input filter output)]

/-! ## Sums -/

theorem sumTo_congr (n : Nat) (f g : Nat → Int) (h : ∀ i, i < n → f i = g i) :
    sumTo n f = sumTo n g := by
  induction n with
  | zero => rfl
  | succ n ih =>
    rw [sumTo, sumTo, ih (fun i hi => h i (Nat.lt_succ_of_lt hi)), h n (Nat.lt_succ_self n)]

theorem sumTo_zero (n : Nat) : sumTo n (fun _ => 0) = 0 := by
  induction n with
  | zero => rfl
  | succ n ih => rw [sumTo, ih]; rfl

theorem sumTo_add (n : Nat) (f g : Nat → Int) :
    sumTo n (fun i => f i + g i) = sumTo n f + sumTo n g := by
  induction n with
  | zero => rfl
  | succ n ih => simp only [sumTo, ih]; ring

theorem sumTo_shift (a b : Nat) (f : Nat → Int) :
    sumTo (a + b) f = sumTo a f + sumTo b (fun i => f (a + i)) := by
  induction b with
  | zero => simp [sumTo]
  | succ b ih => rw [← Nat.add_assoc, sumTo, ih, sumTo]; ring

theorem sumTo_mul (a b : Nat) (f : Nat → Int) :
    sumTo (a * b) f = sumTo a (fun x => sumTo b (fun y => f (x * b + y))) := by
  induction a with
  | zero => simp [sumTo]
  | succ a ih => rw [Nat.succ_mul, sumTo_shift, ih, sumTo]

/-! ## One batch iteration of the GEMM paths -/

theorem forLoop_succ_run (k : Collaborators) (j : Nat) (body : Nat → List Call) (m : Mem) :
    runCalls k (forLoop (j + 1) body) m = runCalls k (body j) (runCalls k (forLoop j body) m) := by
  rw [forLoop, runCalls_append]

theorem row_index_lt (x y X Y : Nat) (hx : x < X) (hy : y < Y) : x * Y + y < X * Y := by
  have h : (x + 1) * Y ≤ X * Y := Nat.mul_le_mul_right Y hx
  rw [Nat.add_mul, Nat.one_mul] at h
  omega

theorem forward_loop_output (k : Collaborators) (alg : BLITZ_ALGORITHM) (a : PatchArgs)
    (layout K : Nat) (m : Mem) (j : Nat)
    (hout : j * (K * (a.P * a.Q)) ≤ (m Buf.output).length)
    (hws : a.C * a.R * a.S * (a.P * a.Q) ≤ (m Buf.workspace).length) :
    (runCalls k (forLoop j fun n =>
        [Call.Unpack2DDispatch ⟨Buf.input, n * (a.C * a.H * a.W)⟩ ⟨Buf.workspace, 0⟩ a layout,
         multiplyCall alg ⟨Buf.filter, 0⟩ ⟨Buf.workspace, 0⟩
           ⟨Buf.output, n * (K * (a.P * a.Q))⟩ false true 1 0
           K (a.P * a.Q) (a.C * a.R * a.S)]) m) Buf.input = m Buf.input ∧
    (runCalls k (forLoop j fun n =>
        [Call.Unpack2DDispatch ⟨Buf.input, n * (a.C * a.H * a.W)⟩ ⟨Buf.workspace, 0⟩ a layout,
         multiplyCall alg ⟨Buf.filter, 0⟩ ⟨Buf.workspace, 0⟩
           ⟨Buf.output, n * (K * (a.P * a.Q))⟩ false true 1 0
           K (a.P * a.Q) (a.C * a.R * a.S)]) m) Buf.filter = m Buf.filter ∧
    ∀ n idx, n < j → idx < K * (a.P * a.Q) →
      ((runCalls k (forLoop j fun n =>
        [Call.Unpack2DDispatch ⟨Buf.input, n * (a.C * a.H * a.W)⟩ ⟨Buf.workspace, 0⟩ a layout,
         multiplyCall alg ⟨Buf.filter, 0⟩ ⟨Buf.workspace, 0⟩
           ⟨Buf.output, n * (K * (a.P * a.Q))⟩ false true 1 0
           K (a.P * a.Q) (a.C * a.R * a.S)]) m) Buf.output).getD
          (n * (K * (a.P * a.Q)) + idx) 0 =
        sumTo (a.C * a.R * a.S) fun crs =>
          (m Buf.filter).getD (idx / (a.P * a.Q) * (a.C * a.R * a.S) + crs) 0 *
          k.Unpack2D (view m ⟨Buf.input, n * (a.C * a.H * a.W)⟩ (a.C * a.H * a.W)) a layout
            (idx % (a.P * a.Q) * (a.C * a.R * a.S) + crs) := by
  induction j with
  | zero =>
    refine ⟨rfl, rfl, ?_⟩
    intro n idx hn; omega
  | succ j ih =>
    have hle : j * (K * (a.P * a.Q)) + K * (a.P * a.Q) ≤ (m Buf.output).length := by
      rw [Nat.succ_mul] at hout; exact hout
    obtain ⟨hin, hfil, hval⟩ := ih (by omega)
    rw [forLoop_succ_run]
    generalize hmj : runCalls k (forLoop j _) m = mj at hin hfil hval
    have hlo : (mj Buf.output).length = (m Buf.output).length := by
      rw [← hmj, length_runCalls]
    have hlw : (mj Buf.workspace).length = (m Buf.workspace).length := by
      rw [← hmj, length_runCalls]
    simp only [runCalls, exec_multiplyCall]
    simp only [exec, execGemm, execUnpack, execPack]
    generalize hm1 : wr mj ⟨Buf.workspace, 0⟩ (a.C * a.R * a.S * (a.P * a.Q))
      (k.Unpack2D (view mj ⟨Buf.input, j * (a.C * a.H * a.W)⟩ (a.C * a.H * a.W)) a layout) = m1
    have h1o : m1 Buf.output = mj Buf.output := by rw [← hm1]; rfl
    have h1i : m1 Buf.input = mj Buf.input := by rw [← hm1]; rfl
    have h1f : m1 Buf.filter = mj Buf.filter := by rw [← hm1]; rfl
    have h1w : m1 Buf.workspace = overwrite (mj Buf.workspace) 0 (a.C * a.R * a.S * (a.P * a.Q))
      (k.Unpack2D (view mj ⟨Buf.input, j * (a.C * a.H * a.W)⟩ (a.C * a.H * a.W)) a layout) := by
      rw [← hm1]; rfl
    refine ⟨?_, ?_, ?_⟩
    · rw [wr_other _ _ _ _ _ (by simp), h1i, hin]
    · rw [wr_other _ _ _ _ _ (by simp), h1f, hfil]
    · intro n idx hn hidx
      have hPQ : 0 < a.P * a.Q := by
        rcases Nat.eq_zero_or_pos (a.P * a.Q) with h | h
        · rw [h] at hidx; omega
        · exact h
      rw [wr_same, getD_overwrite, h1o]
      by_cases hnj : n < j
      · have h1 : (n + 1) * (K * (a.P * a.Q)) ≤ j * (K * (a.P * a.Q)) :=
          Nat.mul_le_mul_right _ hnj
        rw [Nat.add_mul, Nat.one_mul] at h1
        rw [if_neg (by simp only []; omega)]
        exact hval n idx hnj hidx
      · have hnj : n = j := by omega
        subst hnj
        rw [if_pos ⟨by simp only []; omega, by simp only []; omega, by omega⟩]
        simp only [Nat.add_sub_cancel_left, one_mul, zero_mul, add_zero, gemmEntry,
          Bool.false_eq_true, if_false, if_true]
        apply sumTo_congr
        intro crs hcrs
        have hlt : idx % (a.P * a.Q) * (a.C * a.R * a.S) + crs <
            a.P * a.Q * (a.C * a.R * a.S) :=
          row_index_lt _ _ _ _ (Nat.mod_lt _ hPQ) hcrs
        have hlt2 : idx % (a.P * a.Q) * (a.C * a.R * a.S) + crs <
            a.C * a.R * a.S * (a.P * a.Q) := by
          rw [Nat.mul_comm (a.C * a.R * a.S) (a.P * a.Q)]; exact hlt
        congr 1
        · simp only [rd, Nat.zero_add, h1f, hfil]
        · simp only [rd, Nat.zero_add, h1w]
          rw [getD_overwrite, if_pos ⟨Nat.zero_le _, by omega, by omega⟩]
          simp only [Nat.sub_zero]
          congr 1
          funext i
          simp only [view, rd, hin]

/-! ## Forward GEMM against the reference convolution -/

theorem row_div (x y Y : Nat) (hy : y < Y) : (x * Y + y) / Y = x := by
  have hY : 0 < Y := by omega
  rw [Nat.add_comm, Nat.add_mul_div_right _ _ hY, Nat.div_eq_of_lt hy, Nat.zero_add]

theorem row_mod (x y Y : Nat) (hy : y < Y) : (x * Y + y) % Y = y := by
  rw [Nat.add_comm, Nat.add_mul_mod_self_right, Nat.mod_eq_of_lt hy]

theorem sumTo_triple (C R S : Nat) (f : Nat → Int) :
    sumTo (C * R * S) f =
      sumTo C fun c => sumTo R fun r => sumTo S fun s => f ((c * R + r) * S + s) := by
  rw [sumTo_mul, sumTo_mul]

theorem patchEntry_eq_inputAt (m : Mem) (a : PatchArgs) (n c r s p q : Nat)
    (hc : c < a.C) :
    patchEntry (view m ⟨Buf.input, n * (a.C * a.H * a.W)⟩
        (a.C * a.H * a.W)) a c r s p q =
      inputAt (m Buf.input) a.C a.H a.W n c
        ((p : Int) * a.str_h + r - a.pad_h) ((q : Int) * a.str_w + s - a.pad_w) := by
  unfold patchEntry inputAt
  by_cases hg : a.pad_h ≤ p * a.str_h + r ∧ p * a.str_h + r - a.pad_h < a.H ∧
      a.pad_w ≤ q * a.str_w + s ∧ q * a.str_w + s - a.pad_w < a.W
  · obtain ⟨g1, g2, g3, g4⟩ := hg
    have e1 : ((p : Int) * a.str_h + r - a.pad_h) = ((p * a.str_h + r - a.pad_h : Nat) : Int) := by
      push_cast [Nat.cast_sub g1]; ring
    have e2 : ((q : Int) * a.str_w + s - a.pad_w) = ((q * a.str_w + s - a.pad_w : Nat) : Int) := by
      push_cast [Nat.cast_sub g3]; ring
    rw [if_pos ⟨g1, g2, g3, g4⟩, e1, e2]
    rw [if_pos ⟨Int.natCast_nonneg _, by exact_mod_cast g2, Int.natCast_nonneg _,
      by exact_mod_cast g4⟩]
    simp only [Int.toNat_ofNat]
    have hidx : (c * a.H + (p * a.str_h + r - a.pad_h)) * a.W + (q * a.str_w + s - a.pad_w) <
        a.C * a.H * a.W := row_index_lt _ _ _ _ (row_index_lt _ _ _ _ hc g2) g4
    simp only [view, rd, if_pos hidx]
    congr 1
    ring
  · rw [if_neg hg, if_neg]
    intro hh
    apply hg
    obtain ⟨h1, h2, h3, h4⟩ := hh
    omega

theorem rowPatch_sum_eq_reference (m : Mem) (a : PatchArgs) (layout n k p q : Nat)
    (hp : p < a.P) (hq : q < a.Q) :
    (sumTo (a.C * a.R * a.S) fun crs =>
      (m Buf.filter).getD
        ((k * (a.P * a.Q) + (p * a.Q + q)) / (a.P * a.Q) * (a.C * a.R * a.S) + crs) 0 *
      im2colPQxCRS (view m ⟨Buf.input, n * (a.C * a.H * a.W)⟩ (a.C * a.H * a.W)) a layout
        ((k * (a.P * a.Q) + (p * a.Q + q)) % (a.P * a.Q) * (a.C * a.R * a.S) + crs)) =
    referenceConvolution (m Buf.input) (m Buf.filter) a.C a.H a.W a.R a.S
      a.pad_h a.pad_w a.str_h a.str_w n k p q := by
  have hpq : p * a.Q + q < a.P * a.Q := row_index_lt _ _ _ _ hp hq
  rw [row_div _ _ _ hpq, row_mod _ _ _ hpq, sumTo_triple]
  unfold referenceConvolution
  apply sumTo_congr; intro c hc
  apply sumTo_congr; intro r hr
  apply sumTo_congr; intro s hs
  have hrs : r * a.S + s < a.R * a.S := row_index_lt _ _ _ _ hr hs
  have hcrs : (c * a.R + r) * a.S + s < a.C * a.R * a.S :=
    row_index_lt _ _ _ _ (row_index_lt _ _ _ _ hc hr) hs
  have hsplit : (c * a.R + r) * a.S + s = c * (a.R * a.S) + (r * a.S + s) := by ring
  have d1 : ((c * a.R + r) * a.S + s) / (a.R * a.S) = c := by
    rw [hsplit, row_div _ _ _ hrs]
  have d2 : ((c * a.R + r) * a.S + s) % (a.R * a.S) = r * a.S + s := by
    rw [hsplit, row_mod _ _ _ hrs]
  have d3 : ((c * a.R + r) * a.S + s) % a.S = s := row_mod _ _ _ hs
  congr 1
  · unfold filterAt
    congr 1
    ring
  · unfold im2colPQxCRS
    simp only [row_div _ _ _ hcrs, row_mod _ _ _ hcrs, d1, d2, d3, row_div _ _ _ hs,
      row_div _ _ _ hq, row_mod _ _ _ hq]
    exact patchEntry_eq_inputAt m a n c r s p q hc

/-- C1, as the code has it.  Forward under either GEMM variant is correct against the reference
convolution when the patch matrix has one row per output position (PQ x CRS, the orientation the
multiply flags of the code assume) and the multiply computes alpha*op(A)*op(B) + beta*C: with
tensors that pass validation, an output tensor of at least N*K*P*Q elements and a workspace of
at least C*R*S*P*Q elements, every output element out[n,k,p,q] equals the sum over c, r, s of
filter[k,c,r,s] * in[n,c,p*str_h + r - pad_h, q*str_w + s - pad_w], positions outside the image
counting as 0. -/
theorem forward_gemm_reference (input filter output : GPUTensor) (context : ConvolutionContext)
    (hp : passesLayout context input filter output = true)
    (hg : isGemmAlgorithm context.algorithm = true)
    (hout : input.shape.d0 * (output.shape.d1 * (output.shape.d2 * output.shape.d3)) ≤
      output.size)
    (hws : input.shape.d1 * filter.shape.d2 * filter.shape.d3 *
      (output.shape.d2 * output.shape.d3) ≤ context.workspace.length)
    (n k p q : Nat) (hn : n < input.shape.d0) (hk : k < output.shape.d1)
    (hpP : p < output.shape.d2) (hqQ : q < output.shape.d3) :
    outputAt (ForwardResult rowPatchCollaborators input filter output context Buf.output)
        output.shape.d1 output.shape.d2 output.shape.d3 n k p q =
      referenceConvolution input.data filter.data
        input.shape.d1 input.shape.d2 input.shape.d3 filter.shape.d2 filter.shape.d3
        context.pad_h context.pad_w context.str_h context.str_w n k p q := by
  rw [ForwardResult, forward_gemm_calls input filter output context hp hg,
    runCalls_layoutChecks, runCalls]
  generalize hm0 : exec rowPatchCollaborators (Call.Fill Buf.output 0)
    (deviceMemory input.data filter.data output.data context.workspace) = m0
  have h0i : m0 Buf.input = input.data := by rw [← hm0]; rfl
  have h0f : m0 Buf.filter = filter.data := by rw [← hm0]; rfl
  have h0o : (m0 Buf.output).length = output.data.length := by
    rw [← hm0, length_exec]; rfl
  have h0w : m0 Buf.workspace = context.workspace := by rw [← hm0]; rfl
  obtain ⟨-, -, hval⟩ := forward_loop_output rowPatchCollaborators context.algorithm
    ⟨input.shape.d1, input.shape.d2, input.shape.d3, filter.shape.d2, filter.shape.d3,
      output.shape.d2, output.shape.d3, context.pad_h, context.pad_w, context.str_h,
      context.str_w⟩ input.data_layout output.shape.d1 m0 input.shape.d0
    (by rw [h0o]; exact hout) (by rw [h0w]; exact hws)
  have hidx : p * output.shape.d3 + q < output.shape.d2 * output.shape.d3 :=
    row_index_lt _ _ _ _ hpP hqQ
  have hidx2 : k * (output.shape.d2 * output.shape.d3) + (p * output.shape.d3 + q) <
      output.shape.d1 * (output.shape.d2 * output.shape.d3) := row_index_lt _ _ _ _ hk hidx
  have hv := hval n (k * (output.shape.d2 * output.shape.d3) + (p * output.shape.d3 + q))
    hn hidx2
  have hr := rowPatch_sum_eq_reference m0
    ⟨input.shape.d1, input.shape.d2, input.shape.d3, filter.shape.d2, filter.shape.d3,
      output.shape.d2, output.shape.d3, context.pad_h, context.pad_w, context.str_h,
      context.str_w⟩ input.data_layout n k p q hpP hqQ
  rw [h0i, h0f] at hr
  rw [h0f] at hv
  dsimp only at hr hv
  rw [← hr]
  unfold outputAt
  have hix : ((n * output.shape.d1 + k) * output.shape.d2 + p) * output.shape.d3 + q =
      n * (output.shape.d1 * (output.shape.d2 * output.shape.d3)) +
        (k * (output.shape.d2 * output.shape.d3) + (p * output.shape.d3 + q)) := by ring
  rw [hix]
  exact hv

/-- Witness of C1 at the pointwise layer: out[0,0,0,1]. -/
theorem forward_gemm_reference_witness :
    passesLayout (pointwiseContext .BLITZ_CONVOLUTION_BLAS_GEMM) pointwiseInput pointwiseFilter
      pointwiseOutput = true ∧
    outputAt (ForwardResult rowPatchCollaborators pointwiseInput pointwiseFilter pointwiseOutput
        (pointwiseContext .BLITZ_CONVOLUTION_BLAS_GEMM) Buf.output) 1 1 2 0 0 0 1 =
      referenceConvolution pointwiseInput.data pointwiseFilter.data 2 1 2 1 1 0 0 1 1 0 0 0 1 :=
  ⟨by decide,
    forward_gemm_reference pointwiseInput pointwiseFilter pointwiseOutput
      (pointwiseContext .BLITZ_CONVOLUTION_BLAS_GEMM) (by decide) rfl (by decide) (by decide)
      0 0 0 1 (by decide) (by decide) (by decide) (by decide)⟩

/-- C1 as stated fails: with the patch matrix stored as CRS x PQ, as section 6 of the spec has
it, Forward under BLAS leaves out[0,0,0,1] = 3 at the pointwise layer, while the reference
convolution gives 1*2 + 0*4 = 2. -/
theorem forward_gemm_spec_patch_counterexample :
    passesLayout (pointwiseContext .BLITZ_CONVOLUTION_BLAS_GEMM) pointwiseInput pointwiseFilter
      pointwiseOutput = true ∧
    outputAt (ForwardResult specCollaborators pointwiseInput pointwiseFilter pointwiseOutput
        (pointwiseContext .BLITZ_CONVOLUTION_BLAS_GEMM) Buf.output) 1 1 2 0 0 0 1 = 3 ∧
    referenceConvolution pointwiseInput.data pointwiseFilter.data 2 1 2 1 1 0 0 1 1 0 0 0 1 = 2 ∧
    outputAt (ForwardResult specCollaborators pointwiseInput pointwiseFilter pointwiseOutput
        (pointwiseContext .BLITZ_CONVOLUTION_BLAS_GEMM) Buf.output) 1 1 2 0 0 0 1 ≠
      referenceConvolution pointwiseInput.data pointwiseFilter.data 2 1 2 1 1 0 0 1 1 0 0 0 1 := by
  decide

/-! ## Update GEMM: accumulation over the batch -/

theorem getD_drop_take (l : List Int) (off len i : Nat) (hi : i < len) :
    ((l.drop off).take len).getD i 0 = l.getD (off + i) 0 := by
  simp [List.getD_eq_getElem?_getD, List.getElem?_take, hi, List.getElem?_drop]

theorem update_loop_filter (k : Collaborators) (alg : BLITZ_ALGORITHM) (a : PatchArgs)
    (layout K : Nat) (m : Mem) (j : Nat)
    (hws : a.C * a.R * a.S * (a.P * a.Q) ≤ (m Buf.workspace).length) :
    (runCalls k (forLoop j fun n =>
        [Call.Unpack2DDispatch ⟨Buf.input, n * (a.C * a.H * a.W)⟩ ⟨Buf.workspace, 0⟩ a layout,
         multiplyCall alg ⟨Buf.output, n * (K * (a.P * a.Q))⟩ ⟨Buf.workspace, 0⟩
           ⟨Buf.filter, 0⟩ false false 1 1
           K (a.C * a.R * a.S) (a.P * a.Q)]) m) Buf.input = m Buf.input ∧
    (runCalls k (forLoop j fun n =>
        [Call.Unpack2DDispatch ⟨Buf.input, n * (a.C * a.H * a.W)⟩ ⟨Buf.workspace, 0⟩ a layout,
         multiplyCall alg ⟨Buf.output, n * (K * (a.P * a.Q))⟩ ⟨Buf.workspace, 0⟩
           ⟨Buf.filter, 0⟩ false false 1 1
           K (a.C * a.R * a.S) (a.P * a.Q)]) m) Buf.output = m Buf.output ∧
    ∀ idx,
      ((runCalls k (forLoop j fun n =>
        [Call.Unpack2DDispatch ⟨Buf.input, n * (a.C * a.H * a.W)⟩ ⟨Buf.workspace, 0⟩ a layout,
         multiplyCall alg ⟨Buf.output, n * (K * (a.P * a.Q))⟩ ⟨Buf.workspace, 0⟩
           ⟨Buf.filter, 0⟩ false false 1 1
           K (a.C * a.R * a.S) (a.P * a.Q)]) m) Buf.filter).getD idx 0 =
        (m Buf.filter).getD idx 0 +
        if idx < K * (a.C * a.R * a.S) ∧ idx < (m Buf.filter).length then
          sumTo j fun n => sumTo (a.P * a.Q) fun kk =>
            (m Buf.output).getD
              (n * (K * (a.P * a.Q)) + (idx / (a.C * a.R * a.S) * (a.P * a.Q) + kk)) 0 *
            k.Unpack2D (view m ⟨Buf.input, n * (a.C * a.H * a.W)⟩ (a.C * a.H * a.W)) a layout
              (kk * (a.C * a.R * a.S) + idx % (a.C * a.R * a.S))
        else 0 := by
  induction j with
  | zero =>
    refine ⟨rfl, rfl, ?_⟩
    intro idx
    simp [forLoop, runCalls, sumTo]
  | succ j ih =>
    obtain ⟨hin, hout, hval⟩ := ih
    rw [forLoop_succ_run]
    generalize hmj : runCalls k (forLoop j _) m = mj at hin hout hval
    have hlf : (mj Buf.filter).length = (m Buf.filter).length := by
      rw [← hmj, length_runCalls]
    have hlw : (mj Buf.workspace).length = (m Buf.workspace).length := by
      rw [← hmj, length_runCalls]
    simp only [runCalls, exec_multiplyCall]
    simp only [exec, execGemm, execUnpack, execPack]
    generalize hm1 : wr mj ⟨Buf.workspace, 0⟩ (a.C * a.R * a.S * (a.P * a.Q))
      (k.Unpack2D (view mj ⟨Buf.input, j * (a.C * a.H * a.W)⟩ (a.C * a.H * a.W)) a layout) = m1
    have h1o : m1 Buf.output = mj Buf.output := by rw [← hm1]; rfl
    have h1i : m1 Buf.input = mj Buf.input := by rw [← hm1]; rfl
    have h1f : m1 Buf.filter = mj Buf.filter := by rw [← hm1]; rfl
    have h1w : m1 Buf.workspace = overwrite (mj Buf.workspace) 0 (a.C * a.R * a.S * (a.P * a.Q))
      (k.Unpack2D (view mj ⟨Buf.input, j * (a.C * a.H * a.W)⟩ (a.C * a.H * a.W)) a layout) := by
      rw [← hm1]; rfl
    refine ⟨?_, ?_, ?_⟩
    · rw [wr_other _ _ _ _ _ (by simp), h1i, hin]
    · rw [wr_other _ _ _ _ _ (by simp), h1o, hout]
    · intro idx
      rw [wr_same, getD_overwrite, h1f, hlf]
      by_cases hc : idx < K * (a.C * a.R * a.S) ∧ idx < (m Buf.filter).length
      · obtain ⟨hc1, hc2⟩ := hc
        have hCRS : 0 < a.C * a.R * a.S := by
          rcases Nat.eq_zero_or_pos (a.C * a.R * a.S) with h | h
          · rw [h] at hc1; omega
          · exact h
        rw [if_pos ⟨by simp, by simpa using hc1, hc2⟩, if_pos ⟨hc1, hc2⟩]
        simp only [Nat.sub_zero, one_mul, gemmEntry, Bool.false_eq_true, if_false, sumTo]
        have hold : rd m1 ⟨Buf.filter, 0⟩ idx = (mj Buf.filter).getD idx 0 := by
          simp only [rd, Nat.zero_add, h1f]
        rw [hold, hval idx, if_pos ⟨hc1, hc2⟩]
        have hterm : (sumTo (a.P * a.Q) fun kk =>
            rd m1 ⟨Buf.output, j * (K * (a.P * a.Q))⟩ (idx / (a.C * a.R * a.S) * (a.P * a.Q) + kk) *
            rd m1 ⟨Buf.workspace, 0⟩ (kk * (a.C * a.R * a.S) + idx % (a.C * a.R * a.S))) =
            sumTo (a.P * a.Q) fun kk =>
              (m Buf.output).getD
                (j * (K * (a.P * a.Q)) + (idx / (a.C * a.R * a.S) * (a.P * a.Q) + kk)) 0 *
              k.Unpack2D (view m ⟨Buf.input, j * (a.C * a.H * a.W)⟩ (a.C * a.H * a.W)) a layout
                (kk * (a.C * a.R * a.S) + idx % (a.C * a.R * a.S)) := by
          apply sumTo_congr
          intro kk hkk
          have hlt : kk * (a.C * a.R * a.S) + idx % (a.C * a.R * a.S) <
              a.P * a.Q * (a.C * a.R * a.S) :=
            row_index_lt _ _ _ _ hkk (Nat.mod_lt _ hCRS)
          have hlt2 : kk * (a.C * a.R * a.S) + idx % (a.C * a.R * a.S) <
              a.C * a.R * a.S * (a.P * a.Q) := by
            rw [Nat.mul_comm (a.C * a.R * a.S) (a.P * a.Q)]; exact hlt
          congr 1
          · simp only [rd, h1o, hout]
          · simp only [rd, Nat.zero_add, h1w]
            rw [getD_overwrite, if_pos ⟨Nat.zero_le _, by omega, by omega⟩]
            simp only [Nat.sub_zero]
            congr 1
            funext i
            simp only [view, rd, hin]
        rw [hterm]
        ring
      · rw [if_neg (by intro hh; exact hc ⟨by simpa using hh.2.1, hh.2.2⟩), if_neg hc, hval idx,
          if_neg hc]

theorem view_congr (m1 m2 : Mem) (p : Ptr) (len : Nat) (h : m1 p.buf = m2 p.buf) :
    view m1 p len = view m2 p len := by
  funext i
  simp only [view, rd, h]

theorem getD_replicate_zero (n i : Nat) : (List.replicate n (0 : Int)).getD i 0 = 0 := by
  by_cases h : i < n
  · simp [List.getD_eq_getElem?_getD, List.getElem?_replicate, h]
  · simp [List.getD_eq_getElem?_getD, List.getElem?_replicate, h]

/-- Filter-gradient left by Update under a GEMM variant, entry by entry. -/
theorem update_gemm_result (k : Collaborators) (input output update : GPUTensor)
    (context : ConvolutionContext)
    (hp : passesLayout context input update output = true)
    (hg : isGemmAlgorithm context.algorithm = true)
    (hws : input.shape.d1 * update.shape.d2 * update.shape.d3 *
      (output.shape.d2 * output.shape.d3) ≤ context.workspace.length) (idx : Nat) :
    (UpdateResult k input output update context Buf.filter).getD idx 0 =
      if idx < output.shape.d1 * (input.shape.d1 * update.shape.d2 * update.shape.d3) ∧
          idx < update.size then
        sumTo input.shape.d0 fun n =>
          sumTo (output.shape.d2 * output.shape.d3) fun kk =>
            output.data.getD
              (n * (output.shape.d1 * (output.shape.d2 * output.shape.d3)) +
                (idx / (input.shape.d1 * update.shape.d2 * update.shape.d3) *
                  (output.shape.d2 * output.shape.d3) + kk)) 0 *
            k.Unpack2D
              (view (deviceMemory input.data update.data output.data context.workspace)
                ⟨Buf.input, n * (input.shape.d1 * input.shape.d2 * input.shape.d3)⟩
                (input.shape.d1 * input.shape.d2 * input.shape.d3))
              ⟨input.shape.d1, input.shape.d2, input.shape.d3, update.shape.d2, update.shape.d3,
                output.shape.d2, output.shape.d3, context.pad_h, context.pad_w, context.str_h,
                context.str_w⟩ input.data_layout
              (kk * (input.shape.d1 * update.shape.d2 * update.shape.d3) +
                idx % (input.shape.d1 * update.shape.d2 * update.shape.d3))
      else 0 := by
  rw [UpdateResult, update_gemm_calls input output update context hp hg,
    runCalls_layoutChecks, runCalls]
  generalize hm0 : exec k (Call.Fill Buf.filter 0)
    (deviceMemory input.data update.data output.data context.workspace) = m0
  have h0i : m0 Buf.input = input.data := by rw [← hm0]; rfl
  have h0o : m0 Buf.output = output.data := by rw [← hm0]; rfl
  have h0f : m0 Buf.filter = List.replicate update.data.length 0 := by rw [← hm0]; rfl
  have h0w : m0 Buf.workspace = context.workspace := by rw [← hm0]; rfl
  obtain ⟨-, -, hval⟩ := update_loop_filter k context.algorithm
    ⟨input.shape.d1, input.shape.d2, input.shape.d3, update.shape.d2, update.shape.d3,
      output.shape.d2, output.shape.d3, context.pad_h, context.pad_w, context.str_h,
      context.str_w⟩ input.data_layout output.shape.d1 m0 input.shape.d0
    (by rw [h0w]; exact hws)
  have hv := hval idx
  dsimp only at hv
  rw [hv, h0f, getD_replicate_zero, List.length_replicate, h0o, Int.zero_add]
  have hview : ∀ n, view m0 ⟨Buf.input, n * (input.shape.d1 * input.shape.d2 * input.shape.d3)⟩
      (input.shape.d1 * input.shape.d2 * input.shape.d3) =
      view (deviceMemory input.data update.data output.data context.workspace)
        ⟨Buf.input, n * (input.shape.d1 * input.shape.d2 * input.shape.d3)⟩
        (input.shape.d1 * input.shape.d2 * input.shape.d3) :=
    fun n => view_congr _ _ _ _ (by rw [h0i]; rfl)
  simp only [hview]
  rfl

theorem sumTo_const (n : Nat) (c : Int) : sumTo n (fun _ => c) = n * c := by
  induction n with
  | zero => simp [sumTo]
  | succ n ih => rw [sumTo, ih]; push_cast; ring

theorem view_exampleSlice (t : GPUTensor) (n : Nat) (f o w f1 o1 w1 : List Int) :
    view (deviceMemory (exampleSlice t n).data f1 o1 w1)
      ⟨Buf.input, 0 * (t.shape.d1 * t.shape.d2 * t.shape.d3)⟩
      (t.shape.d1 * t.shape.d2 * t.shape.d3) =
    view (deviceMemory t.data f o w)
      ⟨Buf.input, n * (t.shape.d1 * t.shape.d2 * t.shape.d3)⟩
      (t.shape.d1 * t.shape.d2 * t.shape.d3) := by
  funext i
  simp only [view, rd, deviceMemory, exampleSlice, Nat.zero_mul, Nat.zero_add]
  split
  · next hi => exact getD_drop_take _ _ _ _ hi
  · rfl

/-- Single-example filter-gradient, entry by entry, in terms of the batch tensors. -/
theorem update_gemm_single (k : Collaborators) (input output update update1 : GPUTensor)
    (context context1 : ConvolutionContext) (n : Nat)
    (hg : isGemmAlgorithm context.algorithm = true)
    (hshape : update1.shape = update.shape) (hsize : update1.size = update.size)
    (hpad : context1.pad_h = context.pad_h ∧ context1.pad_w = context.pad_w ∧
      context1.str_h = context.str_h ∧ context1.str_w = context.str_w)
    (halg : context1.algorithm = context.algorithm)
    (hws1 : input.shape.d1 * update.shape.d2 * update.shape.d3 *
      (output.shape.d2 * output.shape.d3) ≤ context1.workspace.length)
    (hp1 : passesLayout context1 (exampleSlice input n) update1 (exampleSlice output n) = true)
    (idx : Nat) :
    (UpdateResult k (exampleSlice input n) (exampleSlice output n) update1 context1
        Buf.filter).getD idx 0 =
      if idx < output.shape.d1 * (input.shape.d1 * update.shape.d2 * update.shape.d3) ∧
          idx < update.size then
        sumTo (output.shape.d2 * output.shape.d3) fun kk =>
          output.data.getD
            (n * (output.shape.d1 * (output.shape.d2 * output.shape.d3)) +
              (idx / (input.shape.d1 * update.shape.d2 * update.shape.d3) *
                (output.shape.d2 * output.shape.d3) + kk)) 0 *
          k.Unpack2D
            (view (deviceMemory input.data update.data output.data context.workspace)
              ⟨Buf.input, n * (input.shape.d1 * input.shape.d2 * input.shape.d3)⟩
              (input.shape.d1 * input.shape.d2 * input.shape.d3))
            ⟨input.shape.d1, input.shape.d2, input.shape.d3, update.shape.d2, update.shape.d3,
              output.shape.d2, output.shape.d3, context.pad_h, context.pad_w, context.str_h,
              context.str_w⟩ input.data_layout
            (kk * (input.shape.d1 * update.shape.d2 * update.shape.d3) +
              idx % (input.shape.d1 * update.shape.d2 * update.shape.d3))
      else 0 := by
  rcases update1 with ⟨s1, l1, dat1⟩
  dsimp only at hshape
  subst hshape
  rcases context1 with ⟨ph, pw, sh, sw, alg1, ws1, c1, c2, c3⟩
  dsimp only at hpad halg hws1
  obtain ⟨rfl, rfl, rfl, rfl⟩ := hpad
  subst halg
  have hr := update_gemm_result k (exampleSlice input n) (exampleSlice output n)
    ⟨update.shape, l1, dat1⟩
    ⟨context.pad_h, context.pad_w, context.str_h, context.str_w, context.algorithm, ws1, c1, c2,
      c3⟩ hp1 hg hws1 idx
  rw [hr]
  have hsz : GPUTensor.size ⟨update.shape, l1, dat1⟩ = update.size := hsize
  rw [hsz]
  dsimp only [exampleSlice]
  by_cases hc : idx < output.shape.d1 * (input.shape.d1 * update.shape.d2 * update.shape.d3) ∧
      idx < update.size
  · rw [if_pos hc, if_pos hc]
    simp only [sumTo, Int.zero_add]
    apply sumTo_congr
    intro kk hkk
    have hK : idx / (input.shape.d1 * update.shape.d2 * update.shape.d3) < output.shape.d1 := by
      apply Nat.div_lt_of_lt_mul
      rw [Nat.mul_comm]; exact hc.1
    have hx : idx / (input.shape.d1 * update.shape.d2 * update.shape.d3) *
        (output.shape.d2 * output.shape.d3) + kk <
        output.shape.d1 * output.shape.d2 * output.shape.d3 := by
      rw [Nat.mul_assoc output.shape.d1 output.shape.d2 output.shape.d3]
      exact row_index_lt _ _ _ _ hK hkk
    congr 1
    · rw [Nat.zero_mul, Nat.zero_add, getD_drop_take _ _ _ _ hx,
        Nat.mul_assoc output.shape.d1 output.shape.d2 output.shape.d3]
    · exact congrArg (fun v => k.Unpack2D v _ _ _)
        (view_exampleSlice input n update.data output.data context.workspace _ _ _)
  · rw [if_neg hc, if_neg hc]

/-- C2.  Update under either GEMM variant sums over the batch: with tensors that pass
validation and a workspace of at least C*R*S*P*Q elements, every entry of the filter-gradient
left by the operation equals the sum over n < N of the same entry of the single-example
filter-gradient obtained by running the operation on input slice n and output-gradient slice n
alone, whatever the filter-gradient tensors held before; in particular, when all N examples are
identical the batch result is N times the single-example result (4 times for N = 4). -/
theorem update_gemm_batch_sum (k : Collaborators) (input output update update1 : GPUTensor)
    (context context1 : ConvolutionContext)
    (hp : passesLayout context input update output = true)
    (hg : isGemmAlgorithm context.algorithm = true)
    (hws : input.shape.d1 * update.shape.d2 * update.shape.d3 *
      (output.shape.d2 * output.shape.d3) ≤ context.workspace.length)
    (hshape : update1.shape = update.shape) (hsize : update1.size = update.size)
    (hpad : context1.pad_h = context.pad_h ∧ context1.pad_w = context.pad_w ∧
      context1.str_h = context.str_h ∧ context1.str_w = context.str_w)
    (halg : context1.algorithm = context.algorithm)
    (hws1 : input.shape.d1 * update.shape.d2 * update.shape.d3 *
      (output.shape.d2 * output.shape.d3) ≤ context1.workspace.length)
    (hp1 : ∀ n, n < input.shape.d0 →
      passesLayout context1 (exampleSlice input n) update1 (exampleSlice output n) = true) :
    (∀ idx, (UpdateResult k input output update context Buf.filter).getD idx 0 =
      sumTo input.shape.d0 fun n =>
        (UpdateResult k (exampleSlice input n) (exampleSlice output n) update1 context1
          Buf.filter).getD idx 0) ∧
    ((∀ n, n < input.shape.d0 →
        exampleSlice input n = exampleSlice input 0 ∧
        exampleSlice output n = exampleSlice output 0) →
      ∀ idx, (UpdateResult k input output update context Buf.filter).getD idx 0 =
        input.shape.d0 *
          (UpdateResult k (exampleSlice input 0) (exampleSlice output 0) update1 context1
            Buf.filter).getD idx 0) := by
  have hmain : ∀ idx, (UpdateResult k input output update context Buf.filter).getD idx 0 =
      sumTo input.shape.d0 fun n =>
        (UpdateResult k (exampleSlice input n) (exampleSlice output n) update1 context1
          Buf.filter).getD idx 0 := by
    intro idx
    rw [update_gemm_result k input output update context hp hg hws idx]
    have hs : (sumTo input.shape.d0 fun n =>
        (UpdateResult k (exampleSlice input n) (exampleSlice output n) update1 context1
          Buf.filter).getD idx 0) = sumTo input.shape.d0 fun n => _ :=
      sumTo_congr _ _ _ fun n hn =>
        update_gemm_single k input output update update1 context context1 n hg hshape hsize
          hpad halg hws1 (hp1 n hn) idx
    rw [hs]
    split
    · rfl
    · rw [sumTo_zero]
  refine ⟨hmain, ?_⟩
  intro hsame idx
  rw [hmain idx, ← sumTo_const]
  apply sumTo_congr
  intro n hn
  rw [(hsame n hn).1, (hsame n hn).2]

/-! ## Independence from stale contents -/

theorem overwrite_congr (l : List Int) (off len : Nat) (f g : Nat → Int)
    (h : ∀ i, i < len → f i = g i) : overwrite l off len f = overwrite l off len g := by
  unfold overwrite
  apply List.map_congr_left
  intro i _
  split
  · next hc => exact h (i - off) (by omega)
  · rfl

theorem rd_workspace_written (m : Mem) (len : Nat) (f : Nat → Int) (y : Nat) (hy : y < len) :
    rd (wr m ⟨Buf.workspace, 0⟩ len f) ⟨Buf.workspace, 0⟩ y =
      if y < (m Buf.workspace).length then f y else 0 := by
  simp only [rd, Nat.zero_add]
  rw [wr_same, getD_overwrite]
  by_cases hl : y < (m Buf.workspace).length
  · rw [if_pos ⟨Nat.zero_le _, by omega, hl⟩, if_pos hl, Nat.sub_zero]
  · rw [if_neg (fun hh => hl hh.2.2), if_neg hl]
    exact List.getD_eq_default _ _ (Nat.le_of_not_lt hl)

/-- One Forward GEMM iteration maps memories that agree outside the workspace, with workspaces
of one length, to such memories. -/
theorem forward_iteration_agree (k : Collaborators) (alg : BLITZ_ALGORITHM) (a : PatchArgs)
    (layout K offI offO : Nat) (m1 m2 : Mem)
    (hi : m1 Buf.input = m2 Buf.input) (hf : m1 Buf.filter = m2 Buf.filter)
    (ho : m1 Buf.output = m2 Buf.output)
    (hw : (m1 Buf.workspace).length = (m2 Buf.workspace).length) :
    runCalls k
      [Call.Unpack2DDispatch ⟨Buf.input, offI⟩ ⟨Buf.workspace, 0⟩ a layout,
       multiplyCall alg ⟨Buf.filter, 0⟩ ⟨Buf.workspace, 0⟩ ⟨Buf.output, offO⟩ false true 1 0
         K (a.P * a.Q) (a.C * a.R * a.S)] m1 Buf.input =
    runCalls k
      [Call.Unpack2DDispatch ⟨Buf.input, offI⟩ ⟨Buf.workspace, 0⟩ a layout,
       multiplyCall alg ⟨Buf.filter, 0⟩ ⟨Buf.workspace, 0⟩ ⟨Buf.output, offO⟩ false true 1 0
         K (a.P * a.Q) (a.C * a.R * a.S)] m2 Buf.input ∧
    runCalls k
      [Call.Unpack2DDispatch ⟨Buf.input, offI⟩ ⟨Buf.workspace, 0⟩ a layout,
       multiplyCall alg ⟨Buf.filter, 0⟩ ⟨Buf.workspace, 0⟩ ⟨Buf.output, offO⟩ false true 1 0
         K (a.P * a.Q) (a.C * a.R * a.S)] m1 Buf.filter =
    runCalls k
      [Call.Unpack2DDispatch ⟨Buf.input, offI⟩ ⟨Buf.workspace, 0⟩ a layout,
       multiplyCall alg ⟨Buf.filter, 0⟩ ⟨Buf.workspace, 0⟩ ⟨Buf.output, offO⟩ false true 1 0
         K (a.P * a.Q) (a.C * a.R * a.S)] m2 Buf.filter ∧
    runCalls k
      [Call.Unpack2DDispatch ⟨Buf.input, offI⟩ ⟨Buf.workspace, 0⟩ a layout,
       multiplyCall alg ⟨Buf.filter, 0⟩ ⟨Buf.workspace, 0⟩ ⟨Buf.output, offO⟩ false true 1 0
         K (a.P * a.Q) (a.C * a.R * a.S)] m1 Buf.output =
    runCalls k
      [Call.Unpack2DDispatch ⟨Buf.input, offI⟩ ⟨Buf.workspace, 0⟩ a layout,
       multiplyCall alg ⟨Buf.filter, 0⟩ ⟨Buf.workspace, 0⟩ ⟨Buf.output, offO⟩ false true 1 0
         K (a.P * a.Q) (a.C * a.R * a.S)] m2 Buf.output := by
  simp only [runCalls, exec_multiplyCall]
  simp only [exec, execGemm, execUnpack, execPack]
  have hview : view m1 ⟨Buf.input, offI⟩ (a.C * a.H * a.W) =
      view m2 ⟨Buf.input, offI⟩ (a.C * a.H * a.W) := view_congr _ _ _ _ hi
  rw [hview]
  generalize k.Unpack2D (view m2 ⟨Buf.input, offI⟩ (a.C * a.H * a.W)) a layout = U
  refine ⟨?_, ?_, ?_⟩
  · rw [wr_other _ _ _ _ _ (by simp), wr_other _ _ _ _ _ (by simp)]
    exact hi
  · rw [wr_other _ _ _ _ _ (by simp), wr_other _ _ _ _ _ (by simp)]
    exact hf
  · rw [wr_same, wr_same]
    have e1 : wr m1 ⟨Buf.workspace, 0⟩ (a.C * a.R * a.S * (a.P * a.Q)) U Buf.output =
        m2 Buf.output := ho
    have e2 : wr m2 ⟨Buf.workspace, 0⟩ (a.C * a.R * a.S * (a.P * a.Q)) U Buf.output =
        m2 Buf.output := rfl
    dsimp only
    rw [e1, e2]
    apply overwrite_congr
    intro idx hidx
    have hPQ : 0 < a.P * a.Q := by
      rcases Nat.eq_zero_or_pos (a.P * a.Q) with h | h
      · rw [h] at hidx; omega
      · exact h
    simp only [one_mul, zero_mul, add_zero, gemmEntry, Bool.false_eq_true, if_false, if_true]
    apply sumTo_congr
    intro crs hcrs
    have hlt : idx % (a.P * a.Q) * (a.C * a.R * a.S) + crs <
        a.C * a.R * a.S * (a.P * a.Q) := by
      rw [Nat.mul_comm (a.C * a.R * a.S) (a.P * a.Q)]
      exact row_index_lt _ _ _ _ (Nat.mod_lt _ hPQ) hcrs
    rw [rd_workspace_written _ _ _ _ hlt, rd_workspace_written _ _ _ _ hlt, hw]
    congr 1
    show (m1 Buf.filter).getD _ 0 = (m2 Buf.filter).getD _ 0
    rw [hf]

/-- One BackwardData GEMM iteration maps memories that agree outside the workspace, with
workspaces of one length, to such memories. -/
theorem backward_iteration_agree (k : Collaborators) (alg : BLITZ_ALGORITHM) (a : PatchArgs)
    (layout K offI offO : Nat) (m1 m2 : Mem)
    (hi : m1 Buf.input = m2 Buf.input) (hf : m1 Buf.filter = m2 Buf.filter)
    (ho : m1 Buf.output = m2 Buf.output)
    (hw : (m1 Buf.workspace).length = (m2 Buf.workspace).length) :
    runCalls k
      [multiplyCall alg ⟨Buf.output, offO⟩ ⟨Buf.filter, 0⟩ ⟨Buf.workspace, 0⟩ true false 1 0
         (a.P * a.Q) (a.C * a.R * a.S) K,
       Call.Pack2DDispatch ⟨Buf.workspace, 0⟩ ⟨Buf.input, offI⟩ a layout] m1 Buf.input =
    runCalls k
      [multiplyCall alg ⟨Buf.output, offO⟩ ⟨Buf.filter, 0⟩ ⟨Buf.workspace, 0⟩ true false 1 0
         (a.P * a.Q) (a.C * a.R * a.S) K,
       Call.Pack2DDispatch ⟨Buf.workspace, 0⟩ ⟨Buf.input, offI⟩ a layout] m2 Buf.input ∧
    runCalls k
      [multiplyCall alg ⟨Buf.output, offO⟩ ⟨Buf.filter, 0⟩ ⟨Buf.workspace, 0⟩ true false 1 0
         (a.P * a.Q) (a.C * a.R * a.S) K,
       Call.Pack2DDispatch ⟨Buf.workspace, 0⟩ ⟨Buf.input, offI⟩ a layout] m1 Buf.filter =
    runCalls k
      [multiplyCall alg ⟨Buf.output, offO⟩ ⟨Buf.filter, 0⟩ ⟨Buf.workspace, 0⟩ true false 1 0
         (a.P * a.Q) (a.C * a.R * a.S) K,
       Call.Pack2DDispatch ⟨Buf.workspace, 0⟩ ⟨Buf.input, offI⟩ a layout] m2 Buf.filter ∧
    runCalls k
      [multiplyCall alg ⟨Buf.output, offO⟩ ⟨Buf.filter, 0⟩ ⟨Buf.workspace, 0⟩ true false 1 0
         (a.P * a.Q) (a.C * a.R * a.S) K,
       Call.Pack2DDispatch ⟨Buf.workspace, 0⟩ ⟨Buf.input, offI⟩ a layout] m1 Buf.output =
    runCalls k
      [multiplyCall alg ⟨Buf.output, offO⟩ ⟨Buf.filter, 0⟩ ⟨Buf.workspace, 0⟩ true false 1 0
         (a.P * a.Q) (a.C * a.R * a.S) K,
       Call.Pack2DDispatch ⟨Buf.workspace, 0⟩ ⟨Buf.input, offI⟩ a layout] m2 Buf.output := by
  simp only [runCalls, exec_multiplyCall]
  simp only [exec, execGemm, execUnpack, execPack]
  have hg : (fun idx => 1 * gemmEntry m1 ⟨Buf.output, offO⟩ ⟨Buf.filter, 0⟩ true false
        (a.P * a.Q) (a.C * a.R * a.S) K (idx / (a.C * a.R * a.S)) (idx % (a.C * a.R * a.S)) +
        0 * rd m1 ⟨Buf.workspace, 0⟩ idx) =
      (fun idx => 1 * gemmEntry m2 ⟨Buf.output, offO⟩ ⟨Buf.filter, 0⟩ true false
        (a.P * a.Q) (a.C * a.R * a.S) K (idx / (a.C * a.R * a.S)) (idx % (a.C * a.R * a.S)) +
        0 * rd m2 ⟨Buf.workspace, 0⟩ idx) := by
    funext idx
    simp only [one_mul, zero_mul, add_zero, gemmEntry, rd, ho, hf]
  rw [hg]
  generalize (fun idx => 1 * gemmEntry m2 ⟨Buf.output, offO⟩ ⟨Buf.filter, 0⟩ true false
        (a.P * a.Q) (a.C * a.R * a.S) K (idx / (a.C * a.R * a.S)) (idx % (a.C * a.R * a.S)) +
        0 * rd m2 ⟨Buf.workspace, 0⟩ idx) = G
  have hvw : view (wr m1 ⟨Buf.workspace, 0⟩ (a.P * a.Q * (a.C * a.R * a.S)) G)
        ⟨Buf.workspace, 0⟩ (a.C * a.R * a.S * (a.P * a.Q)) =
      view (wr m2 ⟨Buf.workspace, 0⟩ (a.P * a.Q * (a.C * a.R * a.S)) G)
        ⟨Buf.workspace, 0⟩ (a.C * a.R * a.S * (a.P * a.Q)) := by
    funext i
    simp only [view]
    split
    · next hlt =>
      have hlt2 : i < a.P * a.Q * (a.C * a.R * a.S) := by
        rw [Nat.mul_comm (a.P * a.Q) (a.C * a.R * a.S)]; exact hlt
      rw [rd_workspace_written _ _ _ _ hlt2, rd_workspace_written _ _ _ _ hlt2, hw]
    · rfl
  have hvi : view (wr m1 ⟨Buf.workspace, 0⟩ (a.P * a.Q * (a.C * a.R * a.S)) G)
        ⟨Buf.input, offI⟩ (a.C * a.H * a.W) =
      view (wr m2 ⟨Buf.workspace, 0⟩ (a.P * a.Q * (a.C * a.R * a.S)) G)
        ⟨Buf.input, offI⟩ (a.C * a.H * a.W) := view_congr _ _ _ _ hi
  rw [hvw, hvi]
  refine ⟨?_, ?_, ?_⟩
  · rw [wr_same, wr_same]
    show overwrite (m1 Buf.input) _ _ _ = overwrite (m2 Buf.input) _ _ _
    rw [hi]
  · rw [wr_other _ _ _ _ _ (by simp), wr_other _ _ _ _ _ (by simp)]
    exact hf
  · rw [wr_other _ _ _ _ _ (by simp), wr_other _ _ _ _ _ (by simp)]
    exact ho

theorem forLoop_agree (k : Collaborators) (body : Nat → List Call)
    (hbody : ∀ n (m1 m2 : Mem), m1 Buf.input = m2 Buf.input → m1 Buf.filter = m2 Buf.filter →
      m1 Buf.output = m2 Buf.output →
      (m1 Buf.workspace).length = (m2 Buf.workspace).length →
      runCalls k (body n) m1 Buf.input = runCalls k (body n) m2 Buf.input ∧
      runCalls k (body n) m1 Buf.filter = runCalls k (body n) m2 Buf.filter ∧
      runCalls k (body n) m1 Buf.output = runCalls k (body n) m2 Buf.output)
    (j : Nat) (m1 m2 : Mem)
    (hi : m1 Buf.input = m2 Buf.input) (hf : m1 Buf.filter = m2 Buf.filter)
    (ho : m1 Buf.output = m2 Buf.output)
    (hw : (m1 Buf.workspace).length = (m2 Buf.workspace).length) :
    runCalls k (forLoop j body) m1 Buf.input = runCalls k (forLoop j body) m2 Buf.input ∧
    runCalls k (forLoop j body) m1 Buf.filter = runCalls k (forLoop j body) m2 Buf.filter ∧
    runCalls k (forLoop j body) m1 Buf.output = runCalls k (forLoop j body) m2 Buf.output := by
  induction j with
  | zero => exact ⟨hi, hf, ho⟩
  | succ j ih =>
    obtain ⟨i1, i2, i3⟩ := ih
    rw [forLoop_succ_run, forLoop_succ_run]
    exact hbody j _ _ i1 i2 i3 (by rw [length_runCalls, length_runCalls]; exact hw)

theorem exec_fill_workspace_agree (k : Collaborators) (m1 m2 : Mem)
    (hi : m1 Buf.input = m2 Buf.input) (hf : m1 Buf.filter = m2 Buf.filter)
    (ho : m1 Buf.output = m2 Buf.output)
    (hw : (m1 Buf.workspace).length = (m2 Buf.workspace).length) :
    exec k (Call.Fill Buf.workspace 0) m1 = exec k (Call.Fill Buf.workspace 0) m2 := by
  funext b
  cases b <;> simp [exec, execFill, hi, hf, ho, hw]

/-- Calls of BackwardData under a GEMM variant, validation passed. -/
theorem backward_gemm_calls (output filter input : GPUTensor) (context : ConvolutionContext)
    (hp : passesLayout context input filter output = true)
    (hg : isGemmAlgorithm context.algorithm = true) :
    Convolution2DBackwardFunc output filter input context =
      layoutChecks input filter output ++ Call.Fill Buf.input 0 ::
        forLoop input.shape.d0 fun n =>
          [multiplyCall context.algorithm
             ⟨Buf.output, n * (output.shape.d1 * (output.shape.d2 * output.shape.d3))⟩
             ⟨Buf.filter, 0⟩ ⟨Buf.workspace, 0⟩
             true false 1 0
             (output.shape.d2 * output.shape.d3)
             (input.shape.d1 * filter.shape.d2 * filter.shape.d3) output.shape.d1,
           Call.Pack2DDispatch ⟨Buf.workspace, 0⟩
             ⟨Buf.input, n * (input.shape.d1 * input.shape.d2 * input.shape.d3)⟩
             ⟨input.shape.d1, input.shape.d2, input.shape.d3, filter.shape.d2, filter.shape.d3,
              output.shape.d2, output.shape.d3,
              context.pad_h, context.pad_w, context.str_h, context.str_w⟩
             input.data_layout] := by
  have hbody : BackwardBody output filter input context =
      layoutChecks input filter output ++ Call.Fill Buf.input 0 ::
        forLoop input.shape.d0 fun n =>
          [multiplyCall context.algorithm
             ⟨Buf.output, n * (output.shape.d1 * (output.shape.d2 * output.shape.d3))⟩
             ⟨Buf.filter, 0⟩ ⟨Buf.workspace, 0⟩
             true false 1 0
             (output.shape.d2 * output.shape.d3)
             (input.shape.d1 * filter.shape.d2 * filter.shape.d3) output.shape.d1,
           Call.Pack2DDispatch ⟨Buf.workspace, 0⟩
             ⟨Buf.input, n * (input.shape.d1 * input.shape.d2 * input.shape.d3)⟩
             ⟨input.shape.d1, input.shape.d2, input.shape.d3, filter.shape.d2, filter.shape.d3,
              output.shape.d2, output.shape.d3,
              context.pad_h, context.pad_w, context.str_h, context.str_w⟩
             input.data_layout] := by
    cases h : context.algorithm <;> simp [h, isGemmAlgorithm] at hg <;>
    simp [BackwardBody, Blitz2DBuffer, Blitz2DFilter, layoutChecks, h, multiplyCall]
  rw [Convolution2DBackwardFunc, hbody, runUntilFatal_pass context input filter output _ _ hp,
    runUntilFatal_forLoop]
  · intro i; exact aborts_multiplyCall ..
  · intro i; rfl

/-- Outside the GEMM variants the calls after the zero-fill of the written tensor are the fatal
log alone or start with the zero-fill of the workspace. -/
theorem forward_other_calls (input filter output : GPUTensor) (context : ConvolutionContext)
    (hp : passesLayout context input filter output = true)
    (hg : isGemmAlgorithm context.algorithm = false) :
    ∃ tail, Convolution2DForwardFunc input filter output context =
      layoutChecks input filter output ++ Call.Fill Buf.output 0 :: tail ∧
      (tail = [Call.LOG_FATAL_UnsupportedAlgorithmType context.algorithm] ∨
        ∃ t, tail = Call.Fill Buf.workspace 0 :: t) := by
  simp only [passesLayout, Bool.and_eq_true] at hp
  obtain ⟨⟨p1, p2⟩, p3⟩ := hp
  cases h : context.algorithm <;> simp [h, isGemmAlgorithm] at hg <;>
  simp [Convolution2DForwardFunc, ForwardBody, Blitz2DBuffer, Blitz2DFilter, layoutChecks, h,
    runUntilFatal, aborts, p1, p2, p3]

theorem backward_other_calls (output filter input : GPUTensor) (context : ConvolutionContext)
    (hp : passesLayout context input filter output = true)
    (hg : isGemmAlgorithm context.algorithm = false) :
    ∃ tail, Convolution2DBackwardFunc output filter input context =
      layoutChecks input filter output ++ Call.Fill Buf.input 0 :: tail ∧
      (tail = [Call.LOG_FATAL_UnsupportedAlgorithmType context.algorithm] ∨
        ∃ t, tail = Call.Fill Buf.workspace 0 :: t) := by
  simp only [passesLayout, Bool.and_eq_true] at hp
  obtain ⟨⟨p1, p2⟩, p3⟩ := hp
  cases h : context.algorithm <;> simp [h, isGemmAlgorithm] at hg
  · by_cases h64 : input.shape.d1 % 64 = 0 <;>
    simp [Convolution2DBackwardFunc, BackwardBody, Blitz2DBuffer, Blitz2DFilter, layoutChecks, h,
      h64, runUntilFatal, aborts, p1, p2, p3]
  · simp [Convolution2DBackwardFunc, BackwardBody, Blitz2DBuffer, Blitz2DFilter, layoutChecks, h,
      runUntilFatal, aborts, p1, p2, p3]

theorem tail_agree (k : Collaborators) (alg : BLITZ_ALGORITHM) (tail : List Call)
    (ht : tail = [Call.LOG_FATAL_UnsupportedAlgorithmType alg] ∨
      ∃ t, tail = Call.Fill Buf.workspace 0 :: t)
    (m1 m2 : Mem)
    (hi : m1 Buf.input = m2 Buf.input) (hf : m1 Buf.filter = m2 Buf.filter)
    (ho : m1 Buf.output = m2 Buf.output)
    (hw : (m1 Buf.workspace).length = (m2 Buf.workspace).length) (b : Buf)
    (hb : b ≠ Buf.workspace) :
    runCalls k tail m1 b = runCalls k tail m2 b := by
  rcases ht with rfl | ⟨t, rfl⟩
  · cases b
    · exact hi
    · exact hf
    · exact ho
    · exact absurd rfl hb
  · rw [runCalls, runCalls, exec_fill_workspace_agree k m1 m2 hi hf ho hw]

/-- Forward from two memories that hold the same input and filter and have written tensors and
workspaces of the same lengths leaves the same output. -/
theorem forward_run_agree (k : Collaborators) (input filter output : GPUTensor)
    (context : ConvolutionContext)
    (hp : passesLayout context input filter output = true) (m1 m2 : Mem)
    (hi : m1 Buf.input = m2 Buf.input) (hf : m1 Buf.filter = m2 Buf.filter)
    (ho : (m1 Buf.output).length = (m2 Buf.output).length)
    (hw : (m1 Buf.workspace).length = (m2 Buf.workspace).length) :
    runCalls k (Convolution2DForwardFunc input filter output context) m1 Buf.output =
      runCalls k (Convolution2DForwardFunc input filter output context) m2 Buf.output := by
  have f1 : exec k (Call.Fill Buf.output 0) m1 Buf.input =
      exec k (Call.Fill Buf.output 0) m2 Buf.input := hi
  have f2 : exec k (Call.Fill Buf.output 0) m1 Buf.filter =
      exec k (Call.Fill Buf.output 0) m2 Buf.filter := hf
  have f3 : exec k (Call.Fill Buf.output 0) m1 Buf.output =
      exec k (Call.Fill Buf.output 0) m2 Buf.output := by
    simp [exec, execFill, ho]
  have f4 : (exec k (Call.Fill Buf.output 0) m1 Buf.workspace).length =
      (exec k (Call.Fill Buf.output 0) m2 Buf.workspace).length := hw
  cases hg : isGemmAlgorithm context.algorithm
  · obtain ⟨tail, hc, ht⟩ := forward_other_calls input filter output context hp hg
    rw [hc, runCalls_layoutChecks, runCalls_layoutChecks, runCalls, runCalls]
    exact tail_agree k _ tail ht _ _ f1 f2 f3 f4 Buf.output (by decide)
  · rw [forward_gemm_calls input filter output context hp hg, runCalls_layoutChecks,
      runCalls_layoutChecks, runCalls, runCalls]
    refine (forLoop_agree k _ ?_ _ _ _ f1 f2 f3 f4).2.2
    intro n a1 a2 h1 h2 h3 h4
    exact forward_iteration_agree k context.algorithm
      ⟨input.shape.d1, input.shape.d2, input.shape.d3, filter.shape.d2, filter.shape.d3,
        output.shape.d2, output.shape.d3, context.pad_h, context.pad_w, context.str_h,
        context.str_w⟩ input.data_layout output.shape.d1 _ _ a1 a2 h1 h2 h3 h4

/-- BackwardData from two memories that hold the same output-gradient and filter and have
written tensors and workspaces of the same lengths leaves the same input-gradient. -/
theorem backward_run_agree (k : Collaborators) (output filter input : GPUTensor)
    (context : ConvolutionContext)
    (hp : passesLayout context input filter output = true) (m1 m2 : Mem)
    (hi : (m1 Buf.input).length = (m2 Buf.input).length)
    (hf : m1 Buf.filter = m2 Buf.filter)
    (ho : m1 Buf.output = m2 Buf.output)
    (hw : (m1 Buf.workspace).length = (m2 Buf.workspace).length) :
    runCalls k (Convolution2DBackwardFunc output filter input context) m1 Buf.input =
      runCalls k (Convolution2DBackwardFunc output filter input context) m2 Buf.input := by
  have f1 : exec k (Call.Fill Buf.input 0) m1 Buf.input =
      exec k (Call.Fill Buf.input 0) m2 Buf.input := by
    simp [exec, execFill, hi]
  have f2 : exec k (Call.Fill Buf.input 0) m1 Buf.filter =
      exec k (Call.Fill Buf.input 0) m2 Buf.filter := hf
  have f3 : exec k (Call.Fill Buf.input 0) m1 Buf.output =
      exec k (Call.Fill Buf.input 0) m2 Buf.output := ho
  have f4 : (exec k (Call.Fill Buf.input 0) m1 Buf.workspace).length =
      (exec k (Call.Fill Buf.input 0) m2 Buf.workspace).length := hw
  cases hg : isGemmAlgorithm context.algorithm
  · obtain ⟨tail, hc, ht⟩ := backward_other_calls output filter input context hp hg
    rw [hc, runCalls_layoutChecks, runCalls_layoutChecks, runCalls, runCalls]
    exact tail_agree k _ tail ht _ _ f1 f2 f3 f4 Buf.input (by decide)
  · rw [backward_gemm_calls output filter input context hp hg, runCalls_layoutChecks,
      runCalls_layoutChecks, runCalls, runCalls]
    refine (forLoop_agree k _ ?_ _ _ _ f1 f2 f3 f4).1
    intro n a1 a2 h1 h2 h3 h4
    exact backward_iteration_agree k context.algorithm
      ⟨input.shape.d1, input.shape.d2, input.shape.d3, filter.shape.d2, filter.shape.d3,
        output.shape.d2, output.shape.d3, context.pad_h, context.pad_w, context.str_h,
        context.str_w⟩ input.data_layout output.shape.d1 _ _ a1 a2 h1 h2 h3 h4

theorem runUntilFatal_workspace (context : ConvolutionContext) (ws : List Int)
    (l : List Call) :
    runUntilFatal { context with workspace := ws } l = runUntilFatal context l := by
  induction l with
  | nil => rfl
  | cons c cs ih =>
    have hc : aborts { context with workspace := ws } c = aborts context c := by
      cases c <;> rfl
    simp only [runUntilFatal, hc, ih]

theorem forward_calls_stale (input filter output : GPUTensor) (context : ConvolutionContext)
    (stale ws : List Int) (hs : stale.length = output.size) :
    Convolution2DForwardFunc input filter { output with data := stale }
        { context with workspace := ws } =
      Convolution2DForwardFunc input filter output context := by
  have hb : ForwardBody input filter { output with data := stale }
      { context with workspace := ws } = ForwardBody input filter output context := by
    simp only [GPUTensor.size] at hs
    simp only [ForwardBody, GPUTensor.size, hs]
  rw [Convolution2DForwardFunc, Convolution2DForwardFunc, hb, runUntilFatal_workspace]

theorem backward_calls_stale (output filter input : GPUTensor) (context : ConvolutionContext)
    (stale ws : List Int) (hs : stale.length = input.size) :
    Convolution2DBackwardFunc output filter { input with data := stale }
        { context with workspace := ws } =
      Convolution2DBackwardFunc output filter input context := by
  have hb : BackwardBody output filter { input with data := stale }
      { context with workspace := ws } = BackwardBody output filter input context := by
    simp only [GPUTensor.size] at hs
    simp only [BackwardBody, GPUTensor.size, hs]
  rw [Convolution2DBackwardFunc, Convolution2DBackwardFunc, hb, runUntilFatal_workspace]

theorem forward_stale_independent (k : Collaborators) (input filter output : GPUTensor)
    (context : ConvolutionContext) (stale ws : List Int)
    (hp : passesLayout context input filter output = true)
    (hs : stale.length = output.size) (hw : ws.length = context.workspace.length) :
    ForwardResult k input filter { output with data := stale }
        { context with workspace := ws } Buf.output =
      ForwardResult k input filter output context Buf.output := by
  rw [ForwardResult, ForwardResult, forward_calls_stale input filter output context stale ws hs]
  exact forward_run_agree k input filter output context hp _ _ rfl rfl hs hw

theorem backward_stale_independent (k : Collaborators) (output filter input : GPUTensor)
    (context : ConvolutionContext) (stale ws : List Int)
    (hp : passesLayout context input filter output = true)
    (hs : stale.length = input.size) (hw : ws.length = context.workspace.length) :
    BackwardResult k output filter { input with data := stale }
        { context with workspace := ws } Buf.input =
      BackwardResult k output filter input context Buf.input := by
  rw [BackwardResult, BackwardResult,
    backward_calls_stale output filter input context stale ws hs]
  exact backward_run_agree k output filter input context hp _ _ hs rfl rfl hw

/-- C3.  Forward and BackwardData do not depend on prior state: with tensors that pass
validation, under every algorithm, the written tensor (output for Forward, input-gradient for
BackwardData) is the same whatever the written tensor and the workspace held before the call
(stale contents of the same sizes); in particular calling the operation a second time, on the
tensor and the workspace the first call left, yields the same written tensor again. -/
theorem forward_backward_idempotent (k : Collaborators) (input filter output : GPUTensor)
    (context : ConvolutionContext) (staleOutput staleInput staleWorkspace : List Int)
    (hp : passesLayout context input filter output = true)
    (ho : staleOutput.length = output.size) (hi : staleInput.length = input.size)
    (hw : staleWorkspace.length = context.workspace.length) :
    ForwardResult k input filter { output with data := staleOutput }
        { context with workspace := staleWorkspace } Buf.output =
      ForwardResult k input filter output context Buf.output ∧
    BackwardResult k output filter { input with data := staleInput }
        { context with workspace := staleWorkspace } Buf.input =
      BackwardResult k output filter input context Buf.input ∧
    ForwardResult k input filter
        { output with data := ForwardResult k input filter output context Buf.output }
        { context with workspace := ForwardResult k input filter output context Buf.workspace }
        Buf.output =
      ForwardResult k input filter output context Buf.output ∧
    BackwardResult k output filter
        { input with data := BackwardResult k output filter input context Buf.input }
        { context with workspace := BackwardResult k output filter input context Buf.workspace }
        Buf.input =
      BackwardResult k output filter input context Buf.input := by
  refine ⟨forward_stale_independent k input filter output context _ _ hp ho hw,
    backward_stale_independent k output filter input context _ _ hp hi hw,
    forward_stale_independent k input filter output context _ _ hp ?_ ?_,
    backward_stale_independent k output filter input context _ _ hp ?_ ?_⟩
  · rw [ForwardResult, length_runCalls]; rfl
  · rw [ForwardResult, length_runCalls]; rfl
  · rw [BackwardResult, length_runCalls]; rfl
  · rw [BackwardResult, length_runCalls]; rfl

/-- Witness of C3 at the pointwise layer under BLAS: Forward and BackwardData from stale
contents of the written tensor and of the workspace. -/
theorem forward_backward_idempotent_witness :
    passesLayout (pointwiseContext .BLITZ_CONVOLUTION_BLAS_GEMM) pointwiseInput pointwiseFilter
      pointwiseOutput = true ∧
    ForwardResult rowPatchCollaborators pointwiseInput pointwiseFilter
        { pointwiseOutput with data := [8, -8] }
        { pointwiseContext .BLITZ_CONVOLUTION_BLAS_GEMM with
          workspace := [1, 2, 3, 4, 5, 6, 7, 8] } Buf.output =
      ForwardResult rowPatchCollaborators pointwiseInput pointwiseFilter pointwiseOutput
        (pointwiseContext .BLITZ_CONVOLUTION_BLAS_GEMM) Buf.output ∧
    BackwardResult rowPatchCollaborators pointwiseOutput pointwiseFilter
        { pointwiseInput with data := [5, 5, 5, 5] }
        { pointwiseContext .BLITZ_CONVOLUTION_BLAS_GEMM with
          workspace := [1, 2, 3, 4, 5, 6, 7, 8] } Buf.input =
      BackwardResult rowPatchCollaborators pointwiseOutput pointwiseFilter pointwiseInput
        (pointwiseContext .BLITZ_CONVOLUTION_BLAS_GEMM) Buf.input :=
  ⟨by decide,
    (forward_backward_idempotent rowPatchCollaborators pointwiseInput pointwiseFilter
      pointwiseOutput (pointwiseContext .BLITZ_CONVOLUTION_BLAS_GEMM)
      [8, -8] [5, 5, 5, 5] [1, 2, 3, 4, 5, 6, 7, 8] (by decide) rfl rfl rfl).1,
    (forward_backward_idempotent rowPatchCollaborators pointwiseInput pointwiseFilter
      pointwiseOutput (pointwiseContext .BLITZ_CONVOLUTION_BLAS_GEMM)
      [8, -8] [5, 5, 5, 5] [1, 2, 3, 4, 5, 6, 7, 8] (by decide) rfl rfl rfl).2.1⟩

/-! ## Workspace capacity -/

/-- C6 as stated fails: the small layer satisfies the size relation and its workspace has
exactly input volume + output volume + filter volume = 29 elements, yet Forward under BLAS
writes the patch matrix to workspace elements 0 to 35. -/
theorem workspace_capacity_counterexample :
    passesLayout (smallContext .BLITZ_CONVOLUTION_BLAS_GEMM) smallInput smallFilter smallOutput
      = true ∧
    (smallContext .BLITZ_CONVOLUTION_BLAS_GEMM).workspace.length =
      1 * 1 * 4 * 4 + 1 * 1 * 3 * 3 + 1 * 1 * 2 * 2 ∧
    ¬ WorkspaceInBounds
      (bufferSizes smallInput smallFilter smallOutput (smallContext .BLITZ_CONVOLUTION_BLAS_GEMM))
      (Convolution2DForwardFunc smallInput smallFilter smallOutput
        (smallContext .BLITZ_CONVOLUTION_BLAS_GEMM)) := by
  refine ⟨by decide, by decide, ?_⟩
  intro h
  have h1 := h (Call.Unpack2DDispatch ⟨Buf.input, 0⟩ ⟨Buf.workspace, 0⟩
    ⟨1, 4, 4, 2, 2, 3, 3, 0, 0, 1, 1⟩ 0) (by decide) ⟨Buf.workspace, 0, 36, true⟩ (by decide) rfl
  revert h1
  decide

/-! ## Workspace capacity -/

theorem forward_workspace_in_bounds (input filter output : GPUTensor)
    (context : ConvolutionContext)
    (hin : input.size = input.shape.d0 * (input.shape.d1 * input.shape.d2 * input.shape.d3))
    (hout : output.size =
      input.shape.d0 * (output.shape.d1 * (output.shape.d2 * output.shape.d3)))
    (hdirect : context.algorithm = .BLITZ_CONVOLUTION_SASS_DIRECT →
      input.size + output.size +
        output.shape.d1 * (input.shape.d1 * filter.shape.d2 * filter.shape.d3) ≤
        context.workspace.length)
    (hgemm : isGemmAlgorithm context.algorithm = true →
      input.shape.d1 * filter.shape.d2 * filter.shape.d3 *
        (output.shape.d2 * output.shape.d3) ≤ context.workspace.length) :
    WorkspaceInBounds (bufferSizes input filter output context)
      (Convolution2DForwardFunc input filter output context) := by
  intro c hc
  have hc2 := mem_of_mem_runUntilFatal context _ c hc
  have hcomm1 : output.shape.d1 * (output.shape.d2 * output.shape.d3) * input.shape.d0 =
      input.shape.d0 * (output.shape.d1 * (output.shape.d2 * output.shape.d3)) :=
    Nat.mul_comm _ _
  have hcomm2 : output.shape.d2 * output.shape.d3 *
      (input.shape.d1 * filter.shape.d2 * filter.shape.d3) =
      input.shape.d1 * filter.shape.d2 * filter.shape.d3 *
        (output.shape.d2 * output.shape.d3) := Nat.mul_comm _ _
  have hcomm3 : input.shape.d1 * input.shape.d2 * input.shape.d3 * input.shape.d0 =
      input.shape.d0 * (input.shape.d1 * input.shape.d2 * input.shape.d3) := Nat.mul_comm _ _
  have hcomm4 : input.shape.d1 * filter.shape.d2 * filter.shape.d3 * output.shape.d1 =
      output.shape.d1 * (input.shape.d1 * filter.shape.d2 * filter.shape.d3) :=
    Nat.mul_comm _ _
  cases h : context.algorithm
  · have hd := hdirect h
    simp only [ForwardBody, Blitz2DBuffer, Blitz2DFilter, h, List.mem_append, List.mem_cons,
      List.mem_singleton, List.not_mem_nil, or_false, mem_forLoop] at hc2
    rcases hc2 with (rfl | rfl | rfl | rfl) | rfl | rfl | rfl | rfl | rfl <;>
    simp only [accesses, bufferSizes, List.mem_cons, List.mem_singleton, List.not_mem_nil,
      or_false, forall_eq_or_imp, forall_eq, reduceCtorEq, false_implies, true_implies,
      implies_true, and_true, true_and, IsEmpty.forall_iff] <;>
    omega
  · have hg := hgemm (by rw [h]; rfl)
    simp only [ForwardBody, Blitz2DBuffer, Blitz2DFilter, h, List.mem_append, List.mem_cons,
      List.mem_singleton, List.not_mem_nil, or_false, mem_forLoop] at hc2
    rcases hc2 with (rfl | rfl | rfl | rfl) | ⟨i, -, rfl | rfl⟩ <;>
    simp only [accesses, bufferSizes, List.mem_cons, List.mem_singleton, List.not_mem_nil,
      or_false, forall_eq_or_imp, forall_eq, reduceCtorEq, false_implies, true_implies,
      implies_true, and_true, true_and, IsEmpty.forall_iff] <;>
    omega
  · have hg := hgemm (by rw [h]; rfl)
    simp only [ForwardBody, Blitz2DBuffer, Blitz2DFilter, h, List.mem_append, List.mem_cons,
      List.mem_singleton, List.not_mem_nil, or_false, mem_forLoop] at hc2
    rcases hc2 with (rfl | rfl | rfl | rfl) | ⟨i, -, rfl | rfl⟩ <;>
    simp only [accesses, bufferSizes, List.mem_cons, List.mem_singleton, List.not_mem_nil,
      or_false, forall_eq_or_imp, forall_eq, reduceCtorEq, false_implies, true_implies,
      implies_true, and_true, true_and, IsEmpty.forall_iff] <;>
    omega
  · simp only [ForwardBody, Blitz2DBuffer, Blitz2DFilter, h, List.mem_append, List.mem_cons,
      List.mem_singleton, List.not_mem_nil, or_false, mem_forLoop] at hc2
    rcases hc2 with (rfl | rfl | rfl | rfl) | rfl <;>
    simp only [accesses, bufferSizes, List.mem_cons, List.mem_singleton, List.not_mem_nil,
      or_false, forall_eq_or_imp, forall_eq, reduceCtorEq, false_implies, true_implies,
      implies_true, and_true, true_and, IsEmpty.forall_iff]

theorem update_workspace_in_bounds (input filter output : GPUTensor)
    (context : ConvolutionContext)
    (hin : input.size = input.shape.d0 * (input.shape.d1 * input.shape.d2 * input.shape.d3))
    (hout : output.size =
      input.shape.d0 * (output.shape.d1 * (output.shape.d2 * output.shape.d3)))
    (hdirect : context.algorithm = .BLITZ_CONVOLUTION_SASS_DIRECT →
      input.size + output.size +
        output.shape.d1 * (input.shape.d1 * filter.shape.d2 * filter.shape.d3) ≤
        context.workspace.length)
    (hgemm : isGemmAlgorithm context.algorithm = true →
      input.shape.d1 * filter.shape.d2 * filter.shape.d3 *
        (output.shape.d2 * output.shape.d3) ≤ context.workspace.length) :
    WorkspaceInBounds (bufferSizes input filter output context)
      (Convolution2DUpdateFunc input output filter context) := by
  intro c hc
  have hc2 := mem_of_mem_runUntilFatal context _ c hc
  have hcomm1 : output.shape.d1 * (output.shape.d2 * output.shape.d3) * input.shape.d0 =
      input.shape.d0 * (output.shape.d1 * (output.shape.d2 * output.shape.d3)) :=
    Nat.mul_comm _ _
  have hcomm2 : output.shape.d2 * output.shape.d3 *
      (input.shape.d1 * filter.shape.d2 * filter.shape.d3) =
      input.shape.d1 * filter.shape.d2 * filter.shape.d3 *
        (output.shape.d2 * output.shape.d3) := Nat.mul_comm _ _
  have hcomm3 : input.shape.d1 * input.shape.d2 * input.shape.d3 * input.shape.d0 =
      input.shape.d0 * (input.shape.d1 * input.shape.d2 * input.shape.d3) := Nat.mul_comm _ _
  have hcomm4 : input.shape.d1 * filter.shape.d2 * filter.shape.d3 * output.shape.d1 =
      output.shape.d1 * (input.shape.d1 * filter.shape.d2 * filter.shape.d3) :=
    Nat.mul_comm _ _
  cases h : context.algorithm
  · have hd := hdirect h
    simp only [UpdateBody, Blitz2DBuffer, Blitz2DFilter, h, List.mem_append, List.mem_cons,
      List.mem_singleton, List.not_mem_nil, or_false, mem_forLoop] at hc2
    rcases hc2 with (rfl | rfl | rfl | rfl) | rfl | rfl | rfl | rfl | rfl <;>
    simp only [accesses, bufferSizes, List.mem_cons, List.mem_singleton, List.not_mem_nil,
      or_false, forall_eq_or_imp, forall_eq, reduceCtorEq, false_implies, true_implies,
      implies_true, and_true, true_and, IsEmpty.forall_iff] <;>
    omega
  · have hg := hgemm (by rw [h]; rfl)
    simp only [UpdateBody, Blitz2DBuffer, Blitz2DFilter, h, List.mem_append, List.mem_cons,
      List.mem_singleton, List.not_mem_nil, or_false, mem_forLoop] at hc2
    rcases hc2 with (rfl | rfl | rfl | rfl) | ⟨i, -, rfl | rfl⟩ <;>
    simp only [accesses, bufferSizes, List.mem_cons, List.mem_singleton, List.not_mem_nil,
      or_false, forall_eq_or_imp, forall_eq, reduceCtorEq, false_implies, true_implies,
      implies_true, and_true, true_and, IsEmpty.forall_iff] <;>
    omega
  · have hg := hgemm (by rw [h]; rfl)
    simp only [UpdateBody, Blitz2DBuffer, Blitz2DFilter, h, List.mem_append, List.mem_cons,
      List.mem_singleton, List.not_mem_nil, or_false, mem_forLoop] at hc2
    rcases hc2 with (rfl | rfl | rfl | rfl) | ⟨i, -, rfl | rfl⟩ <;>
    simp only [accesses, bufferSizes, List.mem_cons, List.mem_singleton, List.not_mem_nil,
      or_false, forall_eq_or_imp, forall_eq, reduceCtorEq, false_implies, true_implies,
      implies_true, and_true, true_and, IsEmpty.forall_iff] <;>
    omega
  · simp only [UpdateBody, Blitz2DBuffer, Blitz2DFilter, h, List.mem_append, List.mem_cons,
      List.mem_singleton, List.not_mem_nil, or_false, mem_forLoop] at hc2
    rcases hc2 with (rfl | rfl | rfl | rfl) | rfl <;>
    simp only [accesses, bufferSizes, List.mem_cons, List.mem_singleton, List.not_mem_nil,
      or_false, forall_eq_or_imp, forall_eq, reduceCtorEq, false_implies, true_implies,
      implies_true, and_true, true_and, IsEmpty.forall_iff]

theorem backward_workspace_in_bounds (input filter output : GPUTensor)
    (context : ConvolutionContext)
    (hin : input.size = input.shape.d0 * (input.shape.d1 * input.shape.d2 * input.shape.d3))
    (hout : output.size =
      input.shape.d0 * (output.shape.d1 * (output.shape.d2 * output.shape.d3)))
    (hdirect : context.algorithm = .BLITZ_CONVOLUTION_SASS_DIRECT →
      input.size + output.size +
        output.shape.d1 * (input.shape.d1 * filter.shape.d2 * filter.shape.d3) ≤
        context.workspace.length)
    (hgemm : isGemmAlgorithm context.algorithm = true →
      input.shape.d1 * filter.shape.d2 * filter.shape.d3 *
        (output.shape.d2 * output.shape.d3) ≤ context.workspace.length) :
    WorkspaceInBounds (bufferSizes input filter output context)
      (Convolution2DBackwardFunc output filter input context) := by
  intro c hc
  have hc2 := mem_of_mem_runUntilFatal context _ c hc
  have hcomm1 : output.shape.d1 * (output.shape.d2 * output.shape.d3) * input.shape.d0 =
      input.shape.d0 * (output.shape.d1 * (output.shape.d2 * output.shape.d3)) :=
    Nat.mul_comm _ _
  have hcomm2 : output.shape.d2 * output.shape.d3 *
      (input.shape.d1 * filter.shape.d2 * filter.shape.d3) =
      input.shape.d1 * filter.shape.d2 * filter.shape.d3 *
        (output.shape.d2 * output.shape.d3) := Nat.mul_comm _ _
  have hcomm3 : input.shape.d1 * input.shape.d2 * input.shape.d3 * input.shape.d0 =
      input.shape.d0 * (input.shape.d1 * input.shape.d2 * input.shape.d3) := Nat.mul_comm _ _
  have hcomm4 : input.shape.d1 * filter.shape.d2 * filter.shape.d3 * output.shape.d1 =
      output.shape.d1 * (input.shape.d1 * filter.shape.d2 * filter.shape.d3) :=
    Nat.mul_comm _ _
  cases h : context.algorithm
  · have hd := hdirect h
    by_cases h64 : input.shape.d1 % 64 = 0
    · simp only [BackwardBody, Blitz2DBuffer, Blitz2DFilter, h, h64, List.mem_append, List.mem_cons,
        List.mem_singleton, List.not_mem_nil, or_false, ne_eq, not_true_eq_false,
        if_false] at hc2
      rcases hc2 with (rfl | rfl | rfl | rfl) | ((rfl | rfl) | rfl | rfl) | rfl <;>
      simp only [accesses, bufferSizes, List.mem_cons, List.mem_singleton, List.not_mem_nil,
        or_false, forall_eq_or_imp, forall_eq, reduceCtorEq, false_implies, true_implies,
        implies_true, and_true, true_and, IsEmpty.forall_iff] <;>
      omega
    · simp only [BackwardBody, Blitz2DBuffer, Blitz2DFilter, h, h64, List.mem_append, List.mem_cons,
        List.mem_singleton, List.not_mem_nil, or_false, ne_eq, not_false_eq_true,
        if_true] at hc2
      rcases hc2 with (rfl | rfl | rfl | rfl) | ((rfl | rfl) | rfl) | rfl <;>
      simp only [accesses, bufferSizes, List.mem_cons, List.mem_singleton, List.not_mem_nil,
        or_false, forall_eq_or_imp, forall_eq, reduceCtorEq, false_implies, true_implies,
        implies_true, and_true, true_and, IsEmpty.forall_iff] <;>
      omega
  · have hg := hgemm (by rw [h]; rfl)
    simp only [BackwardBody, Blitz2DBuffer, Blitz2DFilter, h, List.mem_append, List.mem_cons,
      List.mem_singleton, List.not_mem_nil, or_false, mem_forLoop] at hc2
    rcases hc2 with (rfl | rfl | rfl | rfl) | ⟨i, -, rfl | rfl⟩ <;>
    simp only [accesses, bufferSizes, List.mem_cons, List.mem_singleton, List.not_mem_nil,
      or_false, forall_eq_or_imp, forall_eq, reduceCtorEq, false_implies, true_implies,
      implies_true, and_true, true_and, IsEmpty.forall_iff] <;>
    omega
  · have hg := hgemm (by rw [h]; rfl)
    simp only [BackwardBody, Blitz2DBuffer, Blitz2DFilter, h, List.mem_append, List.mem_cons,
      List.mem_singleton, List.not_mem_nil, or_false, mem_forLoop] at hc2
    rcases hc2 with (rfl | rfl | rfl | rfl) | ⟨i, -, rfl | rfl⟩ <;>
    simp only [accesses, bufferSizes, List.mem_cons, List.mem_singleton, List.not_mem_nil,
      or_false, forall_eq_or_imp, forall_eq, reduceCtorEq, false_implies, true_implies,
      implies_true, and_true, true_and, IsEmpty.forall_iff] <;>
    omega
  · simp only [BackwardBody, Blitz2DBuffer, Blitz2DFilter, h, List.mem_append, List.mem_cons,
      List.mem_singleton, List.not_mem_nil, or_false, mem_forLoop] at hc2
    rcases hc2 with (rfl | rfl | rfl | rfl) | rfl <;>
    simp only [accesses, bufferSizes, List.mem_cons, List.mem_singleton, List.not_mem_nil,
      or_false, forall_eq_or_imp, forall_eq, reduceCtorEq, false_implies, true_implies,
      implies_true, and_true, true_and, IsEmpty.forall_iff]

/-- C6, as the code has it.  A workspace is enough for Forward, BackwardData and Update as soon
as it holds input volume + output volume + filter volume elements under DIRECT and
C*R*S*P*Q elements (one unfolded patch matrix) under either GEMM variant: for tensors whose
sizes are their shape volumes, every workspace range a call of the operation reads or writes
then lies inside the workspace. -/
theorem workspace_capacity (input filter output : GPUTensor) (context : ConvolutionContext)
    (hin : input.size = input.shape.d0 * (input.shape.d1 * input.shape.d2 * input.shape.d3))
    (hout : output.size =
      input.shape.d0 * (output.shape.d1 * (output.shape.d2 * output.shape.d3)))
    (hdirect : context.algorithm = .BLITZ_CONVOLUTION_SASS_DIRECT →
      input.size + output.size +
        output.shape.d1 * (input.shape.d1 * filter.shape.d2 * filter.shape.d3) ≤
        context.workspace.length)
    (hgemm : isGemmAlgorithm context.algorithm = true →
      input.shape.d1 * filter.shape.d2 * filter.shape.d3 *
        (output.shape.d2 * output.shape.d3) ≤ context.workspace.length) :
    WorkspaceInBounds (bufferSizes input filter output context)
      (Convolution2DForwardFunc input filter output context) ∧
    WorkspaceInBounds (bufferSizes input filter output context)
      (Convolution2DBackwardFunc output filter input context) ∧
    WorkspaceInBounds (bufferSizes input filter output context)
      (Convolution2DUpdateFunc input output filter context) :=
  ⟨forward_workspace_in_bounds input filter output context hin hout hdirect hgemm,
    backward_workspace_in_bounds input filter output context hin hout hdirect hgemm,
    update_workspace_in_bounds input filter output context hin hout hdirect hgemm⟩

/-- Witness of C6 at the small layer under BLAS with a workspace of 36 elements. -/
theorem workspace_capacity_witness :
    roomyContext.workspace.length = 1 * 2 * 2 * (3 * 3) ∧
    WorkspaceInBounds (bufferSizes smallInput smallFilter smallOutput roomyContext)
      (Convolution2DForwardFunc smallInput smallFilter smallOutput roomyContext) :=
  ⟨by decide,
    (workspace_capacity smallInput smallFilter smallOutput roomyContext (by decide) (by decide)
      (by decide) (by decide)).1⟩

/-! ## Regions of the direct path -/

theorem forward_region_discipline (input filter output : GPUTensor)
    (context : ConvolutionContext)
    (hin : input.size = input.shape.d0 * (input.shape.d1 * input.shape.d2 * input.shape.d3))
    (hout : output.size =
      input.shape.d0 * (output.shape.d1 * (output.shape.d2 * output.shape.d3)))
    (h : context.algorithm = .BLITZ_CONVOLUTION_SASS_DIRECT) :
    RegionDiscipline (bufferSizes input filter output context)
      (directRegions input filter output)
      (Convolution2DForwardFunc input filter output context) := by
  intro c hc hdev
  have hc2 := mem_of_mem_runUntilFatal context _ c hc
  have hcomm1 : output.shape.d1 * (output.shape.d2 * output.shape.d3) * input.shape.d0 =
      input.shape.d0 * (output.shape.d1 * (output.shape.d2 * output.shape.d3)) :=
    Nat.mul_comm _ _
  have hcomm3 : input.shape.d1 * input.shape.d2 * input.shape.d3 * input.shape.d0 =
      input.shape.d0 * (input.shape.d1 * input.shape.d2 * input.shape.d3) := Nat.mul_comm _ _
  have hcomm4 : input.shape.d1 * filter.shape.d2 * filter.shape.d3 * output.shape.d1 =
      output.shape.d1 * (input.shape.d1 * filter.shape.d2 * filter.shape.d3) :=
    Nat.mul_comm _ _
  simp only [ForwardBody, Blitz2DBuffer, Blitz2DFilter, h, List.mem_append, List.mem_cons,
    List.mem_singleton, List.not_mem_nil, or_false] at hc2
  rcases hc2 with (rfl | rfl | rfl | rfl) | rfl | rfl | rfl | rfl | rfl <;>
  simp only [isDeviceWork, Bool.false_eq_true] at hdev <;>
  refine ⟨?_, ?_⟩ <;>
  simp only [accesses, directRegions, bufferSizes, List.mem_cons, List.mem_singleton,
    List.not_mem_nil, or_false, forall_eq_or_imp, forall_eq, reduceCtorEq, if_true, if_false,
    Prod.mk.injEq, Bool.false_eq_true, Bool.true_eq_false, false_implies, true_implies,
    implies_true, and_true, true_and, ne_eq, not_true_eq_false, not_false_eq_true, false_or,
    or_false, true_or, or_true] <;>
  omega

theorem backward_region_discipline (input filter output : GPUTensor)
    (context : ConvolutionContext)
    (hin : input.size = input.shape.d0 * (input.shape.d1 * input.shape.d2 * input.shape.d3))
    (hout : output.size =
      input.shape.d0 * (output.shape.d1 * (output.shape.d2 * output.shape.d3)))
    (h : context.algorithm = .BLITZ_CONVOLUTION_SASS_DIRECT) :
    RegionDiscipline (bufferSizes input filter output context)
      (directRegions input filter output)
      (Convolution2DBackwardFunc output filter input context) := by
  intro c hc hdev
  have hc2 := mem_of_mem_runUntilFatal context _ c hc
  have hcomm1 : output.shape.d1 * (output.shape.d2 * output.shape.d3) * input.shape.d0 =
      input.shape.d0 * (output.shape.d1 * (output.shape.d2 * output.shape.d3)) :=
    Nat.mul_comm _ _
  have hcomm3 : input.shape.d1 * input.shape.d2 * input.shape.d3 * input.shape.d0 =
      input.shape.d0 * (input.shape.d1 * input.shape.d2 * input.shape.d3) := Nat.mul_comm _ _
  have hcomm4 : input.shape.d1 * filter.shape.d2 * filter.shape.d3 * output.shape.d1 =
      output.shape.d1 * (input.shape.d1 * filter.shape.d2 * filter.shape.d3) :=
    Nat.mul_comm _ _
  by_cases h64 : input.shape.d1 % 64 = 0
  · simp only [BackwardBody, Blitz2DBuffer, Blitz2DFilter, h, h64, List.mem_append, List.mem_cons,
      List.mem_singleton, List.not_mem_nil, or_false, ne_eq, not_true_eq_false, if_false] at hc2
    rcases hc2 with (rfl | rfl | rfl | rfl) | ((rfl | rfl) | rfl | rfl) | rfl <;>
    simp only [isDeviceWork, Bool.false_eq_true] at hdev <;>
    refine ⟨?_, ?_⟩ <;>
    simp only [accesses, directRegions, bufferSizes, List.mem_cons, List.mem_singleton,
      List.not_mem_nil, or_false, forall_eq_or_imp, forall_eq, reduceCtorEq, if_true, if_false,
      Prod.mk.injEq, Bool.false_eq_true, Bool.true_eq_false, false_implies, true_implies,
      implies_true, and_true, true_and, ne_eq, not_true_eq_false, not_false_eq_true, false_or,
      or_false, true_or, or_true] <;>
    omega
  · simp only [BackwardBody, Blitz2DBuffer, Blitz2DFilter, h, h64, List.mem_append, List.mem_cons,
      List.mem_singleton, List.not_mem_nil, or_false, ne_eq, not_false_eq_true, if_true] at hc2
    rcases hc2 with (rfl | rfl | rfl | rfl) | ((rfl | rfl) | rfl) | rfl <;>
    simp only [isDeviceWork, Bool.false_eq_true] at hdev <;>
    refine ⟨?_, ?_⟩ <;>
    simp only [accesses, directRegions, bufferSizes, List.mem_cons, List.mem_singleton,
      List.not_mem_nil, or_false, forall_eq_or_imp, forall_eq, reduceCtorEq, if_true, if_false,
      Prod.mk.injEq, Bool.false_eq_true, Bool.true_eq_false, false_implies, true_implies,
      implies_true, and_true, true_and, ne_eq, not_true_eq_false, not_false_eq_true, false_or,
      or_false, true_or, or_true] <;>
    omega

theorem update_region_discipline (input filter output : GPUTensor)
    (context : ConvolutionContext)
    (hin : input.size = input.shape.d0 * (input.shape.d1 * input.shape.d2 * input.shape.d3))
    (hout : output.size =
      input.shape.d0 * (output.shape.d1 * (output.shape.d2 * output.shape.d3)))
    (hfil : filter.size =
      output.shape.d1 * (input.shape.d1 * filter.shape.d2 * filter.shape.d3))
    (h : context.algorithm = .BLITZ_CONVOLUTION_SASS_DIRECT) :
    RegionDiscipline (bufferSizes input filter output context)
      (directRegions input filter output)
      (Convolution2DUpdateFunc input output filter context) := by
  intro c hc hdev
  have hc2 := mem_of_mem_runUntilFatal context _ c hc
  have hcomm1 : output.shape.d1 * (output.shape.d2 * output.shape.d3) * input.shape.d0 =
      input.shape.d0 * (output.shape.d1 * (output.shape.d2 * output.shape.d3)) :=
    Nat.mul_comm _ _
  have hcomm3 : input.shape.d1 * input.shape.d2 * input.shape.d3 * input.shape.d0 =
      input.shape.d0 * (input.shape.d1 * input.shape.d2 * input.shape.d3) := Nat.mul_comm _ _
  have hcomm4 : input.shape.d1 * filter.shape.d2 * filter.shape.d3 * output.shape.d1 =
      output.shape.d1 * (input.shape.d1 * filter.shape.d2 * filter.shape.d3) :=
    Nat.mul_comm _ _
  simp only [UpdateBody, Blitz2DBuffer, Blitz2DFilter, h, List.mem_append, List.mem_cons,
    List.mem_singleton, List.not_mem_nil, or_false] at hc2
  rcases hc2 with (rfl | rfl | rfl | rfl) | rfl | rfl | rfl | rfl | rfl <;>
  simp only [isDeviceWork, Bool.false_eq_true] at hdev <;>
  refine ⟨?_, ?_⟩ <;>
  simp only [accesses, directRegions, bufferSizes, List.mem_cons, List.mem_singleton,
    List.not_mem_nil, or_false, forall_eq_or_imp, forall_eq, reduceCtorEq, if_true, if_false,
    Prod.mk.injEq, Bool.false_eq_true, Bool.true_eq_false, false_implies, true_implies,
    implies_true, and_true, true_and, ne_eq, not_true_eq_false, not_false_eq_true, false_or,
    or_false, true_or, or_true] <;>
  omega

/-- C10.  The workspace regions of the direct path never overlap: for tensors whose sizes are
their shape volumes (input N*C*H*W, output N*K*P*Q, filter K*C*R*S), the three ranges
[0, N*C*H*W), [input.size, input.size + N*K*P*Q) and
[input.size + output.size, input.size + output.size + K*C*R*S) are pairwise disjoint, and in
each of Forward, BackwardData and Update under DIRECT every transpose, fused kernel or shuffle
call writes either exactly one of these three ranges or a whole tensor (rows*cols of a transpose
is the length of its destination), and the range it writes overlaps no range it reads. -/
theorem direct_regions_disjoint (input filter output : GPUTensor)
    (context : ConvolutionContext)
    (hin : input.size = input.shape.d0 * (input.shape.d1 * input.shape.d2 * input.shape.d3))
    (hout : output.size =
      input.shape.d0 * (output.shape.d1 * (output.shape.d2 * output.shape.d3)))
    (hfil : filter.size =
      output.shape.d1 * (input.shape.d1 * filter.shape.d2 * filter.shape.d3))
    (h : context.algorithm = .BLITZ_CONVOLUTION_SASS_DIRECT) :
    PairwiseDisjoint (directRegions input filter output) ∧
    RegionDiscipline (bufferSizes input filter output context)
      (directRegions input filter output)
      (Convolution2DForwardFunc input filter output context) ∧
    RegionDiscipline (bufferSizes input filter output context)
      (directRegions input filter output)
      (Convolution2DBackwardFunc output filter input context) ∧
    RegionDiscipline (bufferSizes input filter output context)
      (directRegions input filter output)
      (Convolution2DUpdateFunc input output filter context) := by
  refine ⟨?_, forward_region_discipline input filter output context hin hout h,
    backward_region_discipline input filter output context hin hout h,
    update_region_discipline input filter output context hin hout hfil h⟩
  simp only [PairwiseDisjoint, directRegions, List.pairwise_cons, List.mem_cons,
    List.mem_singleton, List.not_mem_nil, forall_eq_or_imp, forall_eq, List.Pairwise.nil]
  simp only [or_false, false_implies, implies_true, and_true]
  omega

/-- Witness of C10 at the small layer under the direct algorithm. -/
theorem direct_regions_disjoint_witness :
    directContext.algorithm = .BLITZ_CONVOLUTION_SASS_DIRECT ∧
    directRegions smallInput smallFilter smallOutput = [(0, 16), (16, 9), (25, 4)] ∧
    PairwiseDisjoint (directRegions smallInput smallFilter smallOutput) ∧
    RegionDiscipline (bufferSizes smallInput smallFilter smallOutput directContext)
      (directRegions smallInput smallFilter smallOutput)
      (Convolution2DForwardFunc smallInput smallFilter smallOutput directContext) :=
  ⟨rfl, by decide,
    (direct_regions_disjoint smallInput smallFilter smallOutput directContext (by decide)
      (by decide) (by decide) rfl).1,
    (direct_regions_disjoint smallInput smallFilter smallOutput directContext (by decide)
      (by decide) (by decide) rfl).2.1⟩

/-- Witness of C2 at a batch of 4 identical examples under the fused GEMM variant: entry 0 of
the batch filter-gradient is 4 times that of the single example, 4 * 11 = 44. -/
theorem update_gemm_batch_sum_witness :
    passesLayout batchContext replicatedInput staleGradient replicatedGradient = true ∧
    (UpdateResult rowPatchCollaborators replicatedInput replicatedGradient staleGradient
        batchContext Buf.filter).getD 0 0 =
      (replicatedInput.shape.d0 : Int) *
        (UpdateResult rowPatchCollaborators (exampleSlice replicatedInput 0)
          (exampleSlice replicatedGradient 0) otherStaleGradient singleContext
          Buf.filter).getD 0 0 ∧
    (UpdateResult rowPatchCollaborators replicatedInput replicatedGradient staleGradient
        batchContext Buf.filter).getD 0 0 = 44 :=
  ⟨by decide,
    (update_gemm_batch_sum rowPatchCollaborators replicatedInput replicatedGradient
      staleGradient otherStaleGradient batchContext singleContext (by decide) rfl (by decide)
      rfl rfl ⟨rfl, rfl, rfl, rfl⟩ rfl (by decide) (by decide)).2 (by decide) 0,
    by decide⟩

end Blitz
